import Mathlib

/-!
Verification of the fraud-scan compliance rule engines
(`src/rules/frequencia.py` and `src/rules/elegibilidade_cobertura.py`)
against their natural-language specification.

The Python code is shallowly embedded: dictionaries become records or
association lists, Python `date` objects become a `Date` record over `Nat`
fields with the proleptic-Gregorian ordinal of CPython's `datetime` module,
and code that can raise (`KeyError`, `ValueError` from `strptime`,
configuration validation) returns `Except Err` values.
-/

namespace FraudScan

/-! ## Calendar dates (CPython `datetime.date` semantics) -/

/-- Gregorian leap-year test, as in CPython `_is_leap`. -/
def isLeap (y : Nat) : Bool :=
  y % 4 == 0 && (y % 100 != 0 || y % 400 == 0)

/-- Days in a month, as in CPython `_days_in_month`. -/
def daysInMonth (y m : Nat) : Nat :=
  if m == 2 then (if isLeap y then 29 else 28)
  else if m == 4 || m == 6 || m == 9 || m == 11 then 30
  else 31

/-- Days in all months strictly before month `m`, as in CPython
`_days_before_month` (`m` is 1-based). -/
def daysBeforeMonth (y m : Nat) : Nat :=
  match m with
  | 0 => 0
  | Nat.succ m' => if m' == 0 then 0 else daysBeforeMonth y m' + daysInMonth y m'

/-- Number of days before January 1 of year `y`, as in CPython
`_days_before_year`: `(y-1)*365 + (y-1)//4 - (y-1)//100 + (y-1)//400`.
Stated over `Int` so that the subtraction is honest; `y ≥ 1` in every
date CPython can represent. -/
def daysBeforeYear (y : Nat) : Int :=
  let p : Int := (y : Int) - 1
  p * 365 + ((y - 1 : Nat) : Int) / 4 - ((y - 1 : Nat) : Int) / 100
    + ((y - 1 : Nat) : Int) / 400

/-- A calendar date, field for field CPython's `datetime.date`. -/
structure Date where
  year : Nat
  month : Nat
  day : Nat
deriving DecidableEq, Repr

/-- The proleptic Gregorian ordinal of a date (CPython `_ymd2ord` /
`date.toordinal`): January 1 of year 1 is day 1. -/
def toOrdinal (d : Date) : Int :=
  daysBeforeYear d.year + (daysBeforeMonth d.year d.month : Int) + (d.day : Int)

/-- `(a - b).days` for two CPython dates: the signed day difference. -/
def diffDays (a b : Date) : Int := toOrdinal a - toOrdinal b

/-- Date comparison used by `<=` / `max` on CPython dates (dates compare by
their ordinal). -/
def dle (a b : Date) : Prop := toOrdinal a ≤ toOrdinal b

instance : DecidablePred fun p : Date × Date => dle p.1 p.2 := fun _ => by
  unfold dle; infer_instance

instance (a b : Date) : Decidable (dle a b) := by unfold dle; infer_instance

/-- Monday ordinal of ISO week 1 of `year`, as in CPython
`_isoweek1monday`: the Monday of the week containing the first Thursday
of the year. -/
def isoweek1monday (year : Nat) : Int :=
  let firstday : Int := toOrdinal ⟨year, 1, 1⟩
  let firstweekday : Int := (firstday + 6) % 7
  let week1monday : Int := firstday - firstweekday
  if firstweekday > 3 then week1monday + 7 else week1monday

/-- CPython `date.isocalendar`: the ISO (year, week, weekday) triple of a
date.  The year component can differ from the calendar year near
January 1 / December 31. -/
def isocalendar (d : Date) : Int × Int × Int :=
  let year := d.year
  let today := toOrdinal d
  let week1monday := isoweek1monday year
  let week : Int := (today - week1monday) / 7
  let day : Int := (today - week1monday) % 7
  if week < 0 then
    let week1monday' := isoweek1monday (year - 1)
    let week' : Int := (today - week1monday') / 7
    let day' : Int := (today - week1monday') % 7
    ((year : Int) - 1, week' + 1, day' + 1)
  else if week ≥ 52 && today ≥ isoweek1monday (year + 1) then
    ((year : Int) + 1, 1, day + 1)
  else ((year : Int), week + 1, day + 1)

/-- Zero-padded decimal rendering, for `date.isoformat`. -/
def padNum (w n : Nat) : String :=
  let s := toString n
  String.mk (List.replicate (w - s.length) '0') ++ s

/-- CPython `date.isoformat`: `YYYY-MM-DD`. -/
def isoformat (d : Date) : String :=
  padNum 4 d.year ++ "-" ++ padNum 2 d.month ++ "-" ++ padNum 2 d.day

/-- Python `str.lower()` (the configuration strings are ASCII), defined
structurally so that it evaluates by kernel reduction. -/
def pyLower (s : String) : String := String.mk (s.data.map Char.toLower)

/-- Python `str.startswith`, defined structurally on the character lists
so that it evaluates by kernel reduction. -/
def pyStartswith (s pre : String) : Bool := pre.data.isPrefixOf s.data

/-! ## Errors raised by the engines -/

/-- The exceptions the Python engines can raise during a call or at
construction: `KeyError` on a missing dict key, `ValueError` from
`strptime` on an unparsable date string, `TypeError`-like failure on a
non-integer where an int is required, and the two `ValueError`s of
`RegraMotorFrequencia.__init__` (each carrying the offending therapy
type, as the Python message does). -/
inductive Err where
  | keyError (field : String)
  | dateParse (s : String)
  | notAnInt (field : String)
  | invalidPeriod (tipo : String) (periodo : String)
  | invalidQuantity (tipo : String) (q : Option Int)
  | unsupportedPeriod (periodo : String)
deriving DecidableEq, Repr

/-- Equality of `Except` values is decidable when both components are;
used only to evaluate the engines at concrete witness inputs. -/
instance {ε α : Type} [DecidableEq ε] [DecidableEq α] : DecidableEq (Except ε α) :=
  fun x y =>
    match x, y with
    | Except.ok a, Except.ok b =>
      if h : a = b then Decidable.isTrue (by rw [h])
      else Decidable.isFalse (by simp [h])
    | Except.error e, Except.error f =>
      if h : e = f then Decidable.isTrue (by rw [h])
      else Decidable.isFalse (by simp [h])
    | Except.ok _, Except.error _ => Decidable.isFalse (by simp)
    | Except.error _, Except.ok _ => Decidable.isFalse (by simp)

/-! ## Date-like values and `_parse_date` -/

/-- `DateLike = Union[str, date, datetime]`: a request field holding either
an already-constructed `date` object or an ISO string. (`datetime` values
behave as their `.date()`; they are subsumed by `obj`.) -/
inductive DateLike where
  | obj (d : Date)
  | str (s : String)
deriving DecidableEq, Repr

/-- Split a character list at every dash, keeping empty groups (the list
form of `s.split("-")`). -/
def splitDash : List Char → List (List Char)
  | [] => [[]]
  | c :: cs =>
    let r := splitDash cs
    if c = '-' then [] :: r
    else
      match r with
      | [] => [[c]]
      | g :: gs => (c :: g) :: gs

/-- All characters are ASCII digits. -/
def allDigits (cs : List Char) : Bool := cs.all Char.isDigit

/-- Decimal value of a digit list. -/
def digitsVal (cs : List Char) : Nat :=
  cs.foldl (fun acc c => acc * 10 + (c.toNat - 48)) 0

/-- `datetime.strptime(s, "%Y-%m-%d").date()`: four digits, dash, one or
two digits, dash, one or two digits, forming a valid in-range calendar
date; anything else raises `ValueError`. -/
def parseIso (s : String) : Except Err Date :=
  match splitDash s.data with
  | [ys, ms, ds] =>
    if (ys.length == 4 && allDigits ys)
        && ((ms.length == 1 || ms.length == 2) && allDigits ms)
        && ((ds.length == 1 || ds.length == 2) && allDigits ds) then
      let y := digitsVal ys
      let m := digitsVal ms
      let d := digitsVal ds
      if 1 ≤ y && y ≤ 9999 && 1 ≤ m && m ≤ 12 && 1 ≤ d && d ≤ daysInMonth y m
      then Except.ok ⟨y, m, d⟩
      else Except.error (Err.dateParse s)
    else Except.error (Err.dateParse s)
  | _ => Except.error (Err.dateParse s)

/-- `RegraMotorFrequencia._parse_date`: a `date` object passes through,
a string goes through `strptime("%Y-%m-%d")`. -/
def parse_date (dl : DateLike) : Except Err Date :=
  match dl with
  | DateLike.obj d => Except.ok d
  | DateLike.str s => parseIso s

/-! ## Rule results -/

/-- A value appearing in an `evidencias` mapping: an int, a string, or
Python `None`. -/
inductive EvVal where
  | i (n : Int)
  | s (t : String)
  | null
deriving DecidableEq, Repr

/-- One rule's result dict.  `evidencias` is `none` when the Python dict
has no `"evidencias"` key at all (as in the TEA engine), and `some kvs`
when it maps `"evidencias"` to the ordered key/value mapping `kvs`. -/
structure RuleResult where
  conforme : Bool
  mensagem : String
  evidencias : Option (List (String × EvVal))
deriving DecidableEq, Repr

/-! ## Raw request contexts (Python dicts, field for field)

An `Option` field is `none` when the corresponding dict key is absent;
direct indexing on an absent key raises `KeyError`, `.get` supplies the
documented default. -/

/-- One entry of `historico_sessoes`. -/
structure RawSess where
  tipo : Option String
  data : Option DateLike
deriving DecidableEq, Repr

/-- The `procedimento` dict as read by the frequency engine. -/
structure RawProcF where
  tipo : Option String
  quantidade : Option Int
  data_solicitacao : Option DateLike
deriving DecidableEq, Repr

/-- A raw rule context for the frequency engine. -/
structure RawCtxF where
  procedimento : Option RawProcF
  historico_sessoes : Option (List RawSess)
deriving DecidableEq, Repr

namespace Freq

/-! ## `RegraMotorFrequencia` -/

/-- `RegraMotorFrequencia.PERIODOS_SUPORTADOS`. -/
def PERIODOS_SUPORTADOS : List String := ["diario", "semanal", "mensal", "anual"]

/-- One raw `frequencia_maxima` entry: `quantidade` is `some q` when the
configured value is the integer `q`, and `none` when it is absent or not
an integer. -/
structure FreqRuleCfg where
  periodo : String
  quantidade : Option Int
deriving DecidableEq, Repr

/-- The configuration dict of `RegraMotorFrequencia`, after the
`config.get(..., default)` reads of `__init__`. -/
structure FreqConfig where
  frequencia_maxima : List (String × FreqRuleCfg)
  intervalo_minimo_dias : List (String × Int)
  periodo_repeticao_proibida : List (String × Int)
  nao_permitir_mesmo_dia : List String
deriving DecidableEq, Repr

/-- The validation loop of `RegraMotorFrequencia.__init__`: every
`frequencia_maxima` entry must have a supported period and a non-negative
integer quantity; the first offender raises a `ValueError` naming the
therapy type. -/
def checkConfig : List (String × FreqRuleCfg) → Except Err Unit
  | [] => Except.ok ()
  | (tipo, regra) :: rest =>
    let periodo := pyLower regra.periodo
    if !(PERIODOS_SUPORTADOS.contains periodo) then
      Except.error (Err.invalidPeriod tipo periodo)
    else
      match regra.quantidade with
      | none => Except.error (Err.invalidQuantity tipo none)
      | some q =>
        if q < 0 then Except.error (Err.invalidQuantity tipo (some q))
        else checkConfig rest

/-- `RegraMotorFrequencia._week_year_key`: the `(iso_year, iso_week)`
pair of `dt.isocalendar()`. -/
def week_year_key (dt : Date) : List Int :=
  [(isocalendar dt).1, (isocalendar dt).2.1]

/-- `RegraMotorFrequencia._month_year_key`. -/
def month_year_key (dt : Date) : List Int :=
  [(dt.year : Int), (dt.month : Int)]

/-- `RegraMotorFrequencia._year_key`. -/
def year_key (dt : Date) : Int := (dt.year : Int)

/-- `RegraMotorFrequencia._period_key`; Python returns tuples (modelled
as `List Int`) and raises `ValueError` (modelled as `none`) on an
unsupported period. -/
def period_key (dt : Date) (periodo : String) : Option (List Int) :=
  let p := pyLower periodo
  if p == "diario" then some [(dt.year : Int), (dt.month : Int), (dt.day : Int)]
  else if p == "semanal" then some (week_year_key dt)
  else if p == "mensal" then some (month_year_key dt)
  else if p == "anual" then some [year_key dt]
  else none

/-- The loop body of `_count_in_period`: skip rows of another type,
parse the date of each row of the requested type (raising on a missing
or malformed `data`), and count rows whose period key matches. -/
def countRows (tipo : String) (periodo : String) (kref : List Int) :
    List RawSess → Except Err Nat
  | [] => Except.ok 0
  | sess :: rest =>
    if sess.tipo != some tipo then countRows tipo periodo kref rest
    else
      match sess.data with
      | none => Except.error (Err.keyError "data")
      | some dl => do
        let d ← parse_date dl
        let n ← countRows tipo periodo kref rest
        pure (if period_key d periodo == some kref then n + 1 else n)

/-- `RegraMotorFrequencia._count_in_period`. -/
def count_in_period (historico : List RawSess) (tipo periodo : String)
    (data_ref : Date) : Except Err Nat :=
  match period_key data_ref periodo with
  | none => Except.error (Err.unsupportedPeriod periodo)
  | some kref => countRows tipo periodo kref historico

/-- The list comprehension of `_last_session_date`: the parsed dates of
rows of the requested type that are on or before `ate_data` (parsing
raises on a missing or malformed `data` of any row of that type). -/
def lastRows (tipo : String) (ate_data : Date) :
    List RawSess → Except Err (List Date)
  | [] => Except.ok []
  | sess :: rest =>
    if sess.tipo == some tipo then
      match sess.data with
      | none => Except.error (Err.keyError "data")
      | some dl => do
        let d ← parse_date dl
        let ds ← lastRows tipo ate_data rest
        pure (if dle d ate_data then d :: ds else ds)
    else lastRows tipo ate_data rest

/-- Python `max` over a list of dates: the first maximal element, `none`
on the empty list (the code guards with `if datas else None`). -/
def maxDate : List Date → Option Date
  | [] => none
  | d :: ds =>
    some (ds.foldl (fun acc x => if toOrdinal x > toOrdinal acc then x else acc) d)

/-- `RegraMotorFrequencia._last_session_date`. -/
def last_session_date (historico : List RawSess) (tipo : String)
    (ate_data : Date) : Except Err (Option Date) := do
  let datas ← lastRows tipo ate_data historico
  pure (maxDate datas)

/-- The generator of `_same_day_count`: count rows of the requested type
whose parsed date equals `data_ref`. -/
def sameDayRows (tipo : String) (data_ref : Date) :
    List RawSess → Except Err Nat
  | [] => Except.ok 0
  | sess :: rest =>
    if sess.tipo == some tipo then
      match sess.data with
      | none => Except.error (Err.keyError "data")
      | some dl => do
        let d ← parse_date dl
        let n ← sameDayRows tipo data_ref rest
        pure (if d == data_ref then n + 1 else n)
    else sameDayRows tipo data_ref rest

/-- `RegraMotorFrequencia._same_day_count`. -/
def same_day_count (historico : List RawSess) (tipo : String)
    (data_ref : Date) : Except Err Nat :=
  sameDayRows tipo data_ref historico

/-- `ctx["procedimento"]`. -/
def getProc (ctx : RawCtxF) : Except Err RawProcF :=
  match ctx.procedimento with
  | none => Except.error (Err.keyError "procedimento")
  | some p => Except.ok p

/-- `proc["tipo"]`. -/
def getTipo (proc : RawProcF) : Except Err String :=
  match proc.tipo with
  | none => Except.error (Err.keyError "tipo")
  | some t => Except.ok t

/-- `self._parse_date(proc["data_solicitacao"])`. -/
def getDataSol (proc : RawProcF) : Except Err Date :=
  match proc.data_solicitacao with
  | none => Except.error (Err.keyError "data_solicitacao")
  | some dl => parse_date dl

/-- `RegraMotorFrequencia._rule_frequencia_maxima`.  (Python surrounds the
therapy type with single quotes in messages; the quotes are elided here.) -/
def rule_frequencia_maxima (cfg : FreqConfig) (ctx : RawCtxF) :
    Except Err RuleResult := do
  let proc ← getProc ctx
  let tipo ← getTipo proc
  let qtd_solic : Int := (proc.quantidade.getD 1)
  let data_sol ← getDataSol proc
  let hist := ctx.historico_sessoes.getD []
  match List.lookup tipo cfg.frequencia_maxima with
  | none =>
    pure { conforme := true,
           mensagem := "Sem regra de frequência configurada para " ++ tipo ++ ".",
           evidencias := some [("atual_no_periodo", EvVal.i 0),
                               ("limite", EvVal.null)] }
  | some regra => do
    let periodo := pyLower regra.periodo
    let limite : Int ←
      match regra.quantidade with
      | none => Except.error (Err.keyError "quantidade")
      | some q => Except.ok q
    let atual ← count_in_period hist tipo periodo data_sol
    let total_pos_exec : Int := (atual : Int) + qtd_solic
    let conforme : Bool := decide (total_pos_exec ≤ limite)
    let msg :=
      if conforme then
        "Frequência OK: " ++ toString total_pos_exec ++ "/" ++ toString limite
          ++ " no período " ++ periodo ++ "."
      else
        "Excede frequência: " ++ toString total_pos_exec ++ "/" ++ toString limite
          ++ " no período " ++ periodo ++ "."
    pure { conforme := conforme,
           mensagem := msg,
           evidencias := some [("periodo", EvVal.s periodo),
                               ("consumido_no_periodo", EvVal.i (atual : Int)),
                               ("solicitado", EvVal.i qtd_solic),
                               ("total_pos_execucao", EvVal.i total_pos_exec),
                               ("limite", EvVal.i limite)] }

/-- `RegraMotorFrequencia._rule_intervalo_minimo`. -/
def rule_intervalo_minimo (cfg : FreqConfig) (ctx : RawCtxF) :
    Except Err RuleResult := do
  let proc ← getProc ctx
  let tipo ← getTipo proc
  let qtd_solic : Int := (proc.quantidade.getD 1)
  let data_sol ← getDataSol proc
  let hist := ctx.historico_sessoes.getD []
  let min_days : Int := (List.lookup tipo cfg.intervalo_minimo_dias).getD 0
  if min_days ≤ 0 then
    pure { conforme := true,
           mensagem := "Sem intervalo mínimo configurado para " ++ tipo ++ ".",
           evidencias := some [("intervalo_minimo_dias", EvVal.i 0)] }
  else do
    let lastOpt ← last_session_date hist tipo data_sol
    match lastOpt with
    | none =>
      pure { conforme := true,
             mensagem := "Não há sessões anteriores; intervalo mínimo atendido.",
             evidencias := some [("intervalo_minimo_dias", EvVal.i min_days),
                                 ("dias_desde_ultima", EvVal.null)] }
    | some last_dt =>
      let dias : Int := diffDays data_sol last_dt
      let conforme : Bool :=
        decide (dias ≥ min_days) && (decide (qtd_solic = 1) || decide (min_days = 0))
      let msg :=
        if !conforme then
          "Intervalo não atendido: " ++ toString dias
            ++ "d desde a última; mínimo exigido: " ++ toString min_days ++ "d."
        else
          "Intervalo atendido: " ++ toString dias ++ "d ≥ " ++ toString min_days ++ "d."
      pure { conforme := conforme,
             mensagem := msg,
             evidencias := some
               [("ultima_sessao_em", EvVal.s (isoformat last_dt)),
                ("dias_desde_ultima", EvVal.i dias),
                ("intervalo_minimo_dias", EvVal.i min_days),
                ("quantidade_solicitada_mesmo_dia", EvVal.i qtd_solic)] }

/-- `RegraMotorFrequencia._rule_repeticao_proibida`. -/
def rule_repeticao_proibida (cfg : FreqConfig) (ctx : RawCtxF) :
    Except Err RuleResult := do
  let proc ← getProc ctx
  let tipo ← getTipo proc
  let data_sol ← getDataSol proc
  let hist := ctx.historico_sessoes.getD []
  let dias_proib : Int := (List.lookup tipo cfg.periodo_repeticao_proibida).getD 0
  if dias_proib ≤ 0 then
    pure { conforme := true,
           mensagem := "Sem janela de repetição proibida para " ++ tipo ++ ".",
           evidencias := some [("janela_dias", EvVal.i 0)] }
  else do
    let lastOpt ← last_session_date hist tipo data_sol
    match lastOpt with
    | none =>
      pure { conforme := true,
             mensagem := "Primeira ocorrência; janela respeitada.",
             evidencias := some [("janela_dias", EvVal.i dias_proib),
                                 ("dias_desde_ultima", EvVal.null)] }
    | some last_dt =>
      let dias : Int := diffDays data_sol last_dt
      let conforme : Bool := decide (dias ≥ dias_proib)
      let msg :=
        if conforme then
          "Janela respeitada: " ++ toString dias ++ "d ≥ " ++ toString dias_proib ++ "d."
        else
          "Repetição proibida: " ++ toString dias ++ "d < " ++ toString dias_proib
            ++ "d desde a última."
      pure { conforme := conforme,
             mensagem := msg,
             evidencias := some
               [("ultima_ocorrencia_em", EvVal.s (isoformat last_dt)),
                ("dias_desde_ultima", EvVal.i dias),
                ("janela_repeticao_proibida_dias", EvVal.i dias_proib)] }

/-- `RegraMotorFrequencia._rule_mesmo_dia`. -/
def rule_mesmo_dia (cfg : FreqConfig) (ctx : RawCtxF) :
    Except Err RuleResult := do
  let proc ← getProc ctx
  let tipo ← getTipo proc
  let qtd_solic : Int := (proc.quantidade.getD 1)
  let data_sol ← getDataSol proc
  let hist := ctx.historico_sessoes.getD []
  if cfg.nao_permitir_mesmo_dia.contains tipo then do
    let ja_realizadas_hoje ← same_day_count hist tipo data_sol
    let total_no_dia : Int := (ja_realizadas_hoje : Int) + qtd_solic
    let conforme : Bool := decide (total_no_dia ≤ 1)
    let msg :=
      if conforme then "Regra de não permitir mesmo dia atendida."
      else "Violação: " ++ toString total_no_dia ++ " sessões no mesmo dia para "
        ++ tipo ++ "."
    pure { conforme := conforme,
           mensagem := msg,
           evidencias := some
             [("tipo", EvVal.s tipo),
              ("ja_realizadas_no_dia", EvVal.i (ja_realizadas_hoje : Int)),
              ("solicitadas_no_dia", EvVal.i qtd_solic),
              ("total_no_dia", EvVal.i total_no_dia)] }
  else
    pure { conforme := true,
           mensagem := "Sem restrição de mesmo dia para este tipo.",
           evidencias := some [] }

/-- The per-rule blocks of the frequency engine's report, in registry
order. -/
structure Regras where
  frequencia_maxima : RuleResult
  intervalo_minimo : RuleResult
  repeticao_proibida : RuleResult
  mesmo_dia : RuleResult
deriving DecidableEq, Repr

/-- The dict returned by `RegraMotorFrequencia.validar`. -/
structure FreqReport where
  conforme : Bool
  regras : Regras
deriving DecidableEq, Repr

/-- `RegraMotorFrequencia.validar`: every rule runs (an exception in any
rule aborts the whole call); `conforme` is the conjunction of the four
per-rule flags. -/
def validar (cfg : FreqConfig) (contexto : RawCtxF) : Except Err FreqReport := do
  let fm ← rule_frequencia_maxima cfg contexto
  let im ← rule_intervalo_minimo cfg contexto
  let rp ← rule_repeticao_proibida cfg contexto
  let md ← rule_mesmo_dia cfg contexto
  pure { conforme := fm.conforme && im.conforme && rp.conforme && md.conforme,
         regras := ⟨fm, im, rp, md⟩ }

end Freq

namespace TEA

/-! ## `RegraMotorTEA` (`elegibilidade_cobertura.py`) -/

/-- The `beneficiario` dict as read by the TEA engine. -/
structure RawBenef where
  ativo : Option Bool
  idade : Option Int
  carencia_dias : Option Int
deriving DecidableEq, Repr

/-- The `procedimento` dict as read by the TEA engine. -/
structure RawProcT where
  cid : Option String
  tipo : Option String
  quantidade : Option Int
deriving DecidableEq, Repr

/-- A raw rule context for the TEA engine. -/
structure RawCtxT where
  beneficiario : Option RawBenef
  procedimento : Option RawProcT
deriving DecidableEq, Repr

/-- One `limites_sessoes` entry; `.get(faixa, 0)` defaults an absent age
band to 0. -/
structure Limites where
  ate_12 : Option Int
  acima_12 : Option Int
deriving DecidableEq, Repr

/-- The configuration document of `RegraMotorTEA`, with the nested keys
flattened (`elegibilidade.idade_maxima`, `cobertura.cid_validos`,
`cobertura.tipos_terapia`, `limites_sessoes`). -/
structure TEAConfig where
  idade_maxima : Int
  cid_validos : List String
  tipos_terapia : List String
  limites_sessoes : List (String × Limites)
deriving DecidableEq, Repr

/-- `ctx["beneficiario"]`. -/
def getBenef (ctx : RawCtxT) : Except Err RawBenef :=
  match ctx.beneficiario with
  | none => Except.error (Err.keyError "beneficiario")
  | some b => Except.ok b

/-- `ctx["procedimento"]`. -/
def getProcT (ctx : RawCtxT) : Except Err RawProcT :=
  match ctx.procedimento with
  | none => Except.error (Err.keyError "procedimento")
  | some p => Except.ok p

/-- Read a required key of a dict, raising `KeyError` when absent. -/
def req {α : Type} (field : String) (v : Option α) : Except Err α :=
  match v with
  | none => Except.error (Err.keyError field)
  | some x => Except.ok x

/-- `RegraMotorTEA.regra_elegibilidade`.  Note: the returned dicts carry
no `"evidencias"` key. -/
def regra_elegibilidade (cfg : TEAConfig) (ctx : RawCtxT) :
    Except Err RuleResult := do
  let benef ← getBenef ctx
  let ativo ← req "ativo" benef.ativo
  if !ativo then
    pure { conforme := false, mensagem := "Beneficiário inativo", evidencias := none }
  else do
    let idade ← req "idade" benef.idade
    let idade_max := cfg.idade_maxima
    if idade > idade_max then
      pure { conforme := false,
             mensagem := "Idade do beneficiário excede o limite de "
               ++ toString idade_max ++ " anos",
             evidencias := none }
    else do
      let carencia ← req "carencia_dias" benef.carencia_dias
      if carencia > 0 then
        pure { conforme := false,
               mensagem := "Carência de " ++ toString carencia ++ " dias não cumprida",
               evidencias := none }
      else
        pure { conforme := true, mensagem := "Beneficiário elegível",
               evidencias := none }

/-- `RegraMotorTEA.regra_cobertura_tea`. -/
def regra_cobertura_tea (cfg : TEAConfig) (ctx : RawCtxT) :
    Except Err RuleResult := do
  let proc ← getProcT ctx
  let cid ← req "cid" proc.cid
  let tipo ← req "tipo" proc.tipo
  if !(cfg.cid_validos.any fun pref => pyStartswith cid pref) then
    pure { conforme := false,
           mensagem := "CID " ++ cid ++ " não compatível com TEA",
           evidencias := none }
  else if !(cfg.tipos_terapia.contains tipo) then
    pure { conforme := false,
           mensagem := "Terapia " ++ tipo ++ " não coberta para TEA",
           evidencias := none }
  else
    pure { conforme := true, mensagem := "Procedimento compatível com TEA",
           evidencias := none }

/-- `RegraMotorTEA.regra_limite_sessoes`. -/
def regra_limite_sessoes (cfg : TEAConfig) (ctx : RawCtxT) :
    Except Err RuleResult := do
  let benef ← getBenef ctx
  let idade ← req "idade" benef.idade
  let proc ← getProcT ctx
  let tipo ← req "tipo" proc.tipo
  let solicitadas ← req "quantidade" proc.quantidade
  match List.lookup tipo cfg.limites_sessoes with
  | none =>
    pure { conforme := false,
           mensagem := "Tipo de terapia " ++ tipo ++ " não parametrizado",
           evidencias := none }
  | some limites =>
    let limite : Int :=
      if idade ≤ 12 then limites.ate_12.getD 0 else limites.acima_12.getD 0
    if solicitadas > limite then
      pure { conforme := false,
             mensagem := toString solicitadas ++ " sessões excedem o limite de "
               ++ toString limite ++ " para " ++ tipo ++ " na faixa etária",
             evidencias := none }
    else
      pure { conforme := true,
             mensagem := toString solicitadas
               ++ " sessões estão dentro do limite autorizado para " ++ tipo,
             evidencias := none }

/-- The dict returned by `RegraMotorTEA.validar`: the three rule blocks
in registry order plus the aggregated `conforme` key. -/
structure TEAReport where
  elegibilidade : RuleResult
  cobertura : RuleResult
  limites : RuleResult
  conforme : Bool
deriving DecidableEq, Repr

/-- `RegraMotorTEA.validar`: the for-loop runs every rule of
`self.regras` in insertion order; `conforme` is `all` of the three
per-rule flags (computed before the key is inserted). -/
def validar (cfg : TEAConfig) (contexto : RawCtxT) : Except Err TEAReport := do
  let e ← regra_elegibilidade cfg contexto
  let c ← regra_cobertura_tea cfg contexto
  let l ← regra_limite_sessoes cfg contexto
  pure { elegibilidade := e, cobertura := c, limites := l,
         conforme := e.conforme && c.conforme && l.conforme }

end TEA

/-! ## Well-formed (typed) contexts

A well-formed context has every required field present and every date an
already-constructed `date` object — the input space on which the spec's
functional claims quantify.  `toRaw*` embeds it into the raw dict form
consumed by the engines. -/

/-- A well-formed session record. -/
structure Sessao where
  tipo : String
  data : Date
deriving DecidableEq, Repr

/-- A well-formed `procedimento` for the frequency engine. -/
structure ProcF where
  tipo : String
  quantidade : Int
  data_solicitacao : Date
deriving DecidableEq, Repr

/-- A well-formed frequency-engine context. -/
structure CtxF where
  procedimento : ProcF
  historico_sessoes : List Sessao
deriving DecidableEq, Repr

/-- Embed a well-formed session into its raw dict. -/
def toRawSess (s : Sessao) : RawSess :=
  ⟨some s.tipo, some (DateLike.obj s.data)⟩

/-- Embed a well-formed frequency context into its raw dict. -/
def toRawF (c : CtxF) : RawCtxF :=
  ⟨some ⟨some c.procedimento.tipo, some c.procedimento.quantidade,
         some (DateLike.obj c.procedimento.data_solicitacao)⟩,
   some (c.historico_sessoes.map toRawSess)⟩

/-- A well-formed beneficiary. -/
structure Benef where
  ativo : Bool
  idade : Int
  carencia_dias : Int
deriving DecidableEq, Repr

/-- A well-formed `procedimento` for the TEA engine. -/
structure ProcT where
  cid : String
  tipo : String
  quantidade : Int
deriving DecidableEq, Repr

/-- A well-formed TEA-engine context. -/
structure CtxT where
  beneficiario : Benef
  procedimento : ProcT
deriving DecidableEq, Repr

/-- Embed a well-formed TEA context into its raw dict. -/
def toRawT (c : CtxT) : TEA.RawCtxT :=
  ⟨some ⟨some c.beneficiario.ativo, some c.beneficiario.idade,
         some c.beneficiario.carencia_dias⟩,
   some ⟨some c.procedimento.cid, some c.procedimento.tipo,
         some c.procedimento.quantidade⟩⟩

namespace Freq

/-- The predicate `_count_in_period` counts on a well-formed history:
same type, and the session's period key equals the reference key. -/
def inBucket (tipo periodo : String) (kref : List Int) (s : Sessao) : Bool :=
  s.tipo == tipo && (period_key s.data periodo == some kref)

theorem countRows_map (tipo periodo : String) (kref : List Int)
    (hist : List Sessao) :
    countRows tipo periodo kref (hist.map toRawSess) =
      Except.ok (hist.countP (inBucket tipo periodo kref)) := by
  induction hist with
  | nil => rfl
  | cons s rest ih =>
    by_cases h : s.tipo = tipo
    · simp [countRows, toRawSess, parse_date, ih, List.countP_cons, inBucket, h,
        Bind.bind, Except.bind]
      by_cases hk : period_key s.data periodo = some kref <;>
        simp [hk, Pure.pure, Except.pure]
    · simp [countRows, toRawSess, List.countP_cons, inBucket, h, ih,
        show (some s.tipo != some tipo) = true by simpa using h]

theorem lastRows_map (tipo : String) (ate : Date) (hist : List Sessao) :
    lastRows tipo ate (hist.map toRawSess) =
      Except.ok ((hist.filter fun s => s.tipo == tipo && decide (dle s.data ate)).map
        Sessao.data) := by
  induction hist with
  | nil => rfl
  | cons s rest ih =>
    by_cases h : s.tipo = tipo
    · simp [lastRows, toRawSess, parse_date, ih, List.filter_cons, h,
        Bind.bind, Except.bind]
      by_cases hd : dle s.data ate <;> simp [hd, Pure.pure, Except.pure]
    · simp [lastRows, toRawSess, List.filter_cons, h, ih,
        show (some s.tipo == some tipo) = false by simpa using h]

theorem sameDayRows_map (tipo : String) (dref : Date) (hist : List Sessao) :
    sameDayRows tipo dref (hist.map toRawSess) =
      Except.ok (hist.countP fun s => s.tipo == tipo && s.data == dref) := by
  induction hist with
  | nil => rfl
  | cons s rest ih =>
    by_cases h : s.tipo = tipo
    · simp [sameDayRows, toRawSess, parse_date, ih, List.countP_cons, h,
        Bind.bind, Except.bind]
      by_cases hd : s.data = dref <;> simp [hd, Pure.pure, Except.pure]
    · simp [sameDayRows, toRawSess, List.countP_cons, h, ih,
        show (some s.tipo == some tipo) = false by simpa using h]

theorem count_in_period_map (hist : List Sessao) (tipo periodo : String)
    (data_ref : Date) (kref : List Int)
    (hk : period_key data_ref periodo = some kref) :
    count_in_period (hist.map toRawSess) tipo periodo data_ref =
      Except.ok (hist.countP (inBucket tipo periodo kref)) := by
  simp [count_in_period, hk, countRows_map]

/-- The dates collected by the comprehension of `_last_session_date` on a
well-formed history. -/
def lastDates (hist : List Sessao) (tipo : String) (ate : Date) : List Date :=
  (hist.filter fun s => s.tipo == tipo && decide (dle s.data ate)).map Sessao.data

theorem last_session_date_map (hist : List Sessao) (tipo : String) (ate : Date) :
    last_session_date (hist.map toRawSess) tipo ate =
      Except.ok (maxDate (lastDates hist tipo ate)) := by
  simp [last_session_date, lastRows_map, lastDates, Bind.bind, Except.bind,
    Pure.pure, Except.pure]

theorem same_day_count_map (hist : List Sessao) (tipo : String) (dref : Date) :
    same_day_count (hist.map toRawSess) tipo dref =
      Except.ok (hist.countP fun s => s.tipo == tipo && s.data == dref) := by
  simp [same_day_count, sameDayRows_map]

/-- The fold inside `maxDate` yields an element of `a :: as`. -/
theorem foldl_max_mem (a : Date) (as : List Date) :
    as.foldl (fun acc x => if toOrdinal x > toOrdinal acc then x else acc) a
      ∈ a :: as := by
  induction as generalizing a with
  | nil => simp
  | cons b bs ih =>
    simp only [List.foldl_cons]
    by_cases hb : toOrdinal b > toOrdinal a
    · rw [if_pos hb]
      have := ih b
      simp only [List.mem_cons] at this ⊢
      tauto
    · rw [if_neg hb]
      have := ih a
      simp only [List.mem_cons] at this ⊢
      tauto

/-- The fold inside `maxDate` dominates every element of `a :: as` in
ordinal order. -/
theorem foldl_max_ge (a : Date) (as : List Date) :
    ∀ x ∈ a :: as, toOrdinal x ≤
      toOrdinal (as.foldl (fun acc x => if toOrdinal x > toOrdinal acc then x else acc) a) := by
  induction as generalizing a with
  | nil =>
    intro x hx
    simp only [List.mem_cons, List.not_mem_nil, or_false] at hx
    subst hx
    simp
  | cons b bs ih =>
    intro x hx
    simp only [List.foldl_cons]
    rcases List.mem_cons.1 hx with rfl | hx2
    · by_cases hb : toOrdinal b > toOrdinal x
      · rw [if_pos hb]
        exact le_trans (le_of_lt hb) (ih b b (List.mem_cons_self b bs))
      · rw [if_neg hb]
        exact ih x x (List.mem_cons_self x bs)
    · rcases List.mem_cons.1 hx2 with rfl | hx3
      · by_cases hb : toOrdinal x > toOrdinal a
        · rw [if_pos hb]
          exact ih x x (List.mem_cons_self x bs)
        · rw [if_neg hb]
          exact le_trans (by omega) (ih a a (List.mem_cons_self a bs))
      · by_cases hb : toOrdinal b > toOrdinal a
        · rw [if_pos hb]
          exact ih b x (List.mem_cons.2 (Or.inr hx3))
        · rw [if_neg hb]
          exact ih a x (List.mem_cons.2 (Or.inr hx3))

/-- `maxDate` returns an element of its argument. -/
theorem maxDate_mem {l : List Date} {d : Date} (h : maxDate l = some d) :
    d ∈ l := by
  match l with
  | [] => simp [maxDate] at h
  | a :: as =>
    simp only [maxDate, Option.some.injEq] at h
    subst h
    exact foldl_max_mem a as

/-- Every element of the list is on or before the `maxDate`. -/
theorem maxDate_ge {l : List Date} {d : Date} (h : maxDate l = some d) :
    ∀ x ∈ l, toOrdinal x ≤ toOrdinal d := by
  match l with
  | [] => simp [maxDate] at h
  | a :: as =>
    simp only [maxDate, Option.some.injEq] at h
    subst h
    exact foldl_max_ge a as

theorem maxDate_eq_none {l : List Date} : maxDate l = none ↔ l = [] := by
  cases l <;> simp [maxDate]

/-- `List.lookup` finds a binding that is in the list. -/
theorem lookup_mem {α β : Type} [BEq α] [LawfulBEq α] {k : α} {v : β}
    {l : List (α × β)} (h : List.lookup k l = some v) : (k, v) ∈ l := by
  induction l with
  | nil => simp [List.lookup] at h
  | cons p rest ih =>
    rcases p with ⟨a, b⟩
    by_cases hk : (k == a) = true
    · have ha : k = a := eq_of_beq hk
      simp only [List.lookup, hk, Option.some.injEq] at h
      subst ha
      subst h
      exact List.mem_cons_self _ _
    · have hk2 : (k == a) = false := by simpa using hk
      simp only [List.lookup, hk2] at h
      exact List.mem_cons.2 (Or.inr (ih h))

theorem checkConfig_ok_head {tipo : String} {regra : FreqRuleCfg}
    {rest : List (String × FreqRuleCfg)}
    (h : checkConfig ((tipo, regra) :: rest) = Except.ok ()) :
    pyLower regra.periodo ∈ PERIODOS_SUPORTADOS ∧
      (∃ q, regra.quantidade = some q ∧ 0 ≤ q) ∧
      checkConfig rest = Except.ok () := by
  by_cases hp : pyLower regra.periodo ∈ PERIODOS_SUPORTADOS
  · rcases hq : regra.quantidade with _ | q
    · simp [checkConfig, hp, hq] at h
    · by_cases hneg : q < 0
      · simp [checkConfig, hp, hq, hneg] at h
      · refine ⟨hp, ⟨q, rfl, by omega⟩, ?_⟩
        simpa [checkConfig, hp, hq, hneg] using h
  · simp [checkConfig, hp] at h

theorem checkConfig_ok_of_forall (l : List (String × FreqRuleCfg))
    (h : ∀ p ∈ l, pyLower p.2.periodo ∈ PERIODOS_SUPORTADOS ∧
      ∃ q, p.2.quantidade = some q ∧ 0 ≤ q) :
    checkConfig l = Except.ok () := by
  induction l with
  | nil => rfl
  | cons p rest ih =>
    rcases p with ⟨tipo, regra⟩
    rcases h (tipo, regra) (List.mem_cons_self _ _) with ⟨hp, q, hq, hq0⟩
    have hneg : ¬(q < 0) := by omega
    simp only [checkConfig]
    simp [hp]
    split
    next heq => simp [heq] at hq
    next q2 heq =>
      rw [heq] at hq
      injection hq with hq2
      subst hq2
      rw [if_neg hneg]
      exact ih (fun p hp2 => h p (List.mem_cons.2 (Or.inr hp2)))

theorem checkConfig_ok_forall (l : List (String × FreqRuleCfg))
    (h : checkConfig l = Except.ok ()) :
    ∀ p ∈ l, pyLower p.2.periodo ∈ PERIODOS_SUPORTADOS ∧
      ∃ q, p.2.quantidade = some q ∧ 0 ≤ q := by
  induction l with
  | nil => simp
  | cons p rest ih =>
    rcases p with ⟨tipo, regra⟩
    have hh := checkConfig_ok_head h
    intro x hx
    rcases List.mem_cons.1 hx with rfl | hx2
    · exact ⟨hh.1, hh.2.1⟩
    · exact ih hh.2.2 x hx2

theorem checkConfig_error_mem (l : List (String × FreqRuleCfg)) (e : Err)
    (h : checkConfig l = Except.error e) :
    ∃ p ∈ l, e = Err.invalidPeriod p.1 (pyLower p.2.periodo) ∨
      e = Err.invalidQuantity p.1 p.2.quantidade := by
  induction l with
  | nil => simp [checkConfig] at h
  | cons p rest ih =>
    rcases p with ⟨tipo, regra⟩
    by_cases hp : pyLower regra.periodo ∈ PERIODOS_SUPORTADOS
    · rcases hq : regra.quantidade with _ | q
      · simp [checkConfig, hp, hq] at h
        exact ⟨(tipo, regra), List.mem_cons_self _ _, Or.inr (by rw [hq]; exact h.symm)⟩
      · by_cases hneg : q < 0
        · simp [checkConfig, hp, hq, hneg] at h
          exact ⟨(tipo, regra), List.mem_cons_self _ _, Or.inr (by rw [hq]; exact h.symm)⟩
        · simp [checkConfig, hp, hq, hneg] at h
          rcases ih h with ⟨p2, hp2, hcase⟩
          exact ⟨p2, List.mem_cons.2 (Or.inr hp2), hcase⟩
    · simp [checkConfig, hp] at h
      exact ⟨(tipo, regra), List.mem_cons_self _ _, Or.inl h.symm⟩

theorem period_key_supported (p : String) (hp : p ∈ PERIODOS_SUPORTADOS)
    (d : Date) : ∃ k, period_key d p = some k := by
  simp only [PERIODOS_SUPORTADOS, List.mem_cons, List.not_mem_nil, or_false] at hp
  rcases hp with rfl | rfl | rfl | rfl
  · exact ⟨[(d.year : Int), (d.month : Int), (d.day : Int)], by simp +decide [period_key]⟩
  · exact ⟨week_year_key d, by simp +decide [period_key]⟩
  · exact ⟨month_year_key d, by simp +decide [period_key]⟩
  · exact ⟨[year_key d], by simp +decide [period_key]⟩

theorem rule_fm_none (cfg : FreqConfig) (c : CtxF)
    (h : List.lookup c.procedimento.tipo cfg.frequencia_maxima = none) :
    rule_frequencia_maxima cfg (toRawF c) = Except.ok
      { conforme := true,
        mensagem := "Sem regra de frequência configurada para "
          ++ c.procedimento.tipo ++ ".",
        evidencias := some [("atual_no_periodo", EvVal.i 0),
          ("limite", EvVal.null)] } := by
  simp [rule_frequencia_maxima, toRawF, getProc, getTipo, getDataSol, parse_date, h,
    Bind.bind, Except.bind, Pure.pure, Except.pure]

theorem rule_fm_some (cfg : FreqConfig) (c : CtxF) (regra : FreqRuleCfg)
    (L : Int) (kref : List Int)
    (h : List.lookup c.procedimento.tipo cfg.frequencia_maxima = some regra)
    (hq : regra.quantidade = some L)
    (hk : period_key c.procedimento.data_solicitacao (pyLower regra.periodo) = some kref) :
    rule_frequencia_maxima cfg (toRawF c) = Except.ok
      { conforme := decide
          ((c.historico_sessoes.countP
              (inBucket c.procedimento.tipo (pyLower regra.periodo) kref) : Int)
            + c.procedimento.quantidade ≤ L),
        mensagem :=
          if ((c.historico_sessoes.countP
              (inBucket c.procedimento.tipo (pyLower regra.periodo) kref) : Int)
              + c.procedimento.quantidade ≤ L) then
            "Frequência OK: "
              ++ toString ((c.historico_sessoes.countP
                  (inBucket c.procedimento.tipo (pyLower regra.periodo) kref) : Int)
                + c.procedimento.quantidade)
              ++ "/" ++ toString L ++ " no período " ++ pyLower regra.periodo ++ "."
          else
            "Excede frequência: "
              ++ toString ((c.historico_sessoes.countP
                  (inBucket c.procedimento.tipo (pyLower regra.periodo) kref) : Int)
                + c.procedimento.quantidade)
              ++ "/" ++ toString L ++ " no período " ++ pyLower regra.periodo ++ ".",
        evidencias := some
          [("periodo", EvVal.s (pyLower regra.periodo)),
           ("consumido_no_periodo", EvVal.i (c.historico_sessoes.countP
              (inBucket c.procedimento.tipo (pyLower regra.periodo) kref) : Int)),
           ("solicitado", EvVal.i c.procedimento.quantidade),
           ("total_pos_execucao", EvVal.i ((c.historico_sessoes.countP
              (inBucket c.procedimento.tipo (pyLower regra.periodo) kref) : Int)
              + c.procedimento.quantidade)),
           ("limite", EvVal.i L)] } := by
  have hcount := count_in_period_map c.historico_sessoes c.procedimento.tipo
    (pyLower regra.periodo) c.procedimento.data_solicitacao kref hk
  simp [rule_frequencia_maxima, toRawF, getProc, getTipo, getDataSol, parse_date,
    h, hq, hcount, Bind.bind, Except.bind, Pure.pure, Except.pure]

theorem rule_im_unset (cfg : FreqConfig) (c : CtxF)
    (h : (List.lookup c.procedimento.tipo cfg.intervalo_minimo_dias).getD 0 ≤ 0) :
    rule_intervalo_minimo cfg (toRawF c) = Except.ok
      { conforme := true,
        mensagem := "Sem intervalo mínimo configurado para "
          ++ c.procedimento.tipo ++ ".",
        evidencias := some [("intervalo_minimo_dias", EvVal.i 0)] } := by
  simp [rule_intervalo_minimo, toRawF, getProc, getTipo, getDataSol, parse_date, h,
    Bind.bind, Except.bind, Pure.pure, Except.pure]

theorem rule_im_noprior (cfg : FreqConfig) (c : CtxF)
    (h : ¬((List.lookup c.procedimento.tipo cfg.intervalo_minimo_dias).getD 0 ≤ 0))
    (hlast : maxDate (lastDates c.historico_sessoes c.procedimento.tipo
      c.procedimento.data_solicitacao) = none) :
    rule_intervalo_minimo cfg (toRawF c) = Except.ok
      { conforme := true,
        mensagem := "Não há sessões anteriores; intervalo mínimo atendido.",
        evidencias := some [("intervalo_minimo_dias",
            EvVal.i ((List.lookup c.procedimento.tipo cfg.intervalo_minimo_dias).getD 0)),
          ("dias_desde_ultima", EvVal.null)] } := by
  have hl := last_session_date_map c.historico_sessoes c.procedimento.tipo
    c.procedimento.data_solicitacao
  rw [hlast] at hl
  simp [rule_intervalo_minimo, toRawF, getProc, getTipo, getDataSol, parse_date, h,
    hl, Bind.bind, Except.bind, Pure.pure, Except.pure]

theorem rule_im_prior (cfg : FreqConfig) (c : CtxF) (last_dt : Date)
    (h : ¬((List.lookup c.procedimento.tipo cfg.intervalo_minimo_dias).getD 0 ≤ 0))
    (hlast : maxDate (lastDates c.historico_sessoes c.procedimento.tipo
      c.procedimento.data_solicitacao) = some last_dt) :
    rule_intervalo_minimo cfg (toRawF c) = Except.ok
      { conforme :=
          decide (diffDays c.procedimento.data_solicitacao last_dt ≥
            (List.lookup c.procedimento.tipo cfg.intervalo_minimo_dias).getD 0)
          && (decide (c.procedimento.quantidade = 1)
              || decide ((List.lookup c.procedimento.tipo cfg.intervalo_minimo_dias).getD 0 = 0)),
        mensagem :=
          if !(decide (diffDays c.procedimento.data_solicitacao last_dt ≥
                (List.lookup c.procedimento.tipo cfg.intervalo_minimo_dias).getD 0)
              && (decide (c.procedimento.quantidade = 1)
                || decide ((List.lookup c.procedimento.tipo cfg.intervalo_minimo_dias).getD 0 = 0))) then
            "Intervalo não atendido: "
              ++ toString (diffDays c.procedimento.data_solicitacao last_dt)
              ++ "d desde a última; mínimo exigido: "
              ++ toString ((List.lookup c.procedimento.tipo cfg.intervalo_minimo_dias).getD 0) ++ "d."
          else
            "Intervalo atendido: "
              ++ toString (diffDays c.procedimento.data_solicitacao last_dt)
              ++ "d ≥ "
              ++ toString ((List.lookup c.procedimento.tipo cfg.intervalo_minimo_dias).getD 0) ++ "d.",
        evidencias := some
          [("ultima_sessao_em", EvVal.s (isoformat last_dt)),
           ("dias_desde_ultima", EvVal.i (diffDays c.procedimento.data_solicitacao last_dt)),
           ("intervalo_minimo_dias",
             EvVal.i ((List.lookup c.procedimento.tipo cfg.intervalo_minimo_dias).getD 0)),
           ("quantidade_solicitada_mesmo_dia", EvVal.i c.procedimento.quantidade)] } := by
  have hl := last_session_date_map c.historico_sessoes c.procedimento.tipo
    c.procedimento.data_solicitacao
  rw [hlast] at hl
  simp [rule_intervalo_minimo, toRawF, getProc, getTipo, getDataSol, parse_date, h,
    hl, Bind.bind, Except.bind, Pure.pure, Except.pure]

theorem rule_rp_unset (cfg : FreqConfig) (c : CtxF)
    (h : (List.lookup c.procedimento.tipo cfg.periodo_repeticao_proibida).getD 0 ≤ 0) :
    rule_repeticao_proibida cfg (toRawF c) = Except.ok
      { conforme := true,
        mensagem := "Sem janela de repetição proibida para "
          ++ c.procedimento.tipo ++ ".",
        evidencias := some [("janela_dias", EvVal.i 0)] } := by
  simp [rule_repeticao_proibida, toRawF, getProc, getTipo, getDataSol, parse_date, h,
    Bind.bind, Except.bind, Pure.pure, Except.pure]

theorem rule_rp_noprior (cfg : FreqConfig) (c : CtxF)
    (h : ¬((List.lookup c.procedimento.tipo cfg.periodo_repeticao_proibida).getD 0 ≤ 0))
    (hlast : maxDate (lastDates c.historico_sessoes c.procedimento.tipo
      c.procedimento.data_solicitacao) = none) :
    rule_repeticao_proibida cfg (toRawF c) = Except.ok
      { conforme := true,
        mensagem := "Primeira ocorrência; janela respeitada.",
        evidencias := some [("janela_dias",
            EvVal.i ((List.lookup c.procedimento.tipo cfg.periodo_repeticao_proibida).getD 0)),
          ("dias_desde_ultima", EvVal.null)] } := by
  have hl := last_session_date_map c.historico_sessoes c.procedimento.tipo
    c.procedimento.data_solicitacao
  rw [hlast] at hl
  simp [rule_repeticao_proibida, toRawF, getProc, getTipo, getDataSol, parse_date, h,
    hl, Bind.bind, Except.bind, Pure.pure, Except.pure]

theorem rule_rp_prior (cfg : FreqConfig) (c : CtxF) (last_dt : Date)
    (h : ¬((List.lookup c.procedimento.tipo cfg.periodo_repeticao_proibida).getD 0 ≤ 0))
    (hlast : maxDate (lastDates c.historico_sessoes c.procedimento.tipo
      c.procedimento.data_solicitacao) = some last_dt) :
    rule_repeticao_proibida cfg (toRawF c) = Except.ok
      { conforme :=
          decide (diffDays c.procedimento.data_solicitacao last_dt ≥
            (List.lookup c.procedimento.tipo cfg.periodo_repeticao_proibida).getD 0),
        mensagem :=
          if (diffDays c.procedimento.data_solicitacao last_dt ≥
              (List.lookup c.procedimento.tipo cfg.periodo_repeticao_proibida).getD 0) then
            "Janela respeitada: "
              ++ toString (diffDays c.procedimento.data_solicitacao last_dt)
              ++ "d ≥ "
              ++ toString ((List.lookup c.procedimento.tipo cfg.periodo_repeticao_proibida).getD 0)
              ++ "d."
          else
            "Repetição proibida: "
              ++ toString (diffDays c.procedimento.data_solicitacao last_dt)
              ++ "d < "
              ++ toString ((List.lookup c.procedimento.tipo cfg.periodo_repeticao_proibida).getD 0)
              ++ "d desde a última.",
        evidencias := some
          [("ultima_ocorrencia_em", EvVal.s (isoformat last_dt)),
           ("dias_desde_ultima", EvVal.i (diffDays c.procedimento.data_solicitacao last_dt)),
           ("janela_repeticao_proibida_dias",
             EvVal.i ((List.lookup c.procedimento.tipo cfg.periodo_repeticao_proibida).getD 0))] } := by
  have hl := last_session_date_map c.historico_sessoes c.procedimento.tipo
    c.procedimento.data_solicitacao
  rw [hlast] at hl
  simp [rule_repeticao_proibida, toRawF, getProc, getTipo, getDataSol, parse_date, h,
    hl, Bind.bind, Except.bind, Pure.pure, Except.pure]

theorem rule_md_exempt (cfg : FreqConfig) (c : CtxF)
    (h : ¬(c.procedimento.tipo ∈ cfg.nao_permitir_mesmo_dia)) :
    rule_mesmo_dia cfg (toRawF c) = Except.ok
      { conforme := true,
        mensagem := "Sem restrição de mesmo dia para este tipo.",
        evidencias := some [] } := by
  simp [rule_mesmo_dia, toRawF, getProc, getTipo, getDataSol, parse_date, h,
    Bind.bind, Except.bind, Pure.pure, Except.pure]

theorem rule_md_listed (cfg : FreqConfig) (c : CtxF)
    (h : c.procedimento.tipo ∈ cfg.nao_permitir_mesmo_dia) :
    rule_mesmo_dia cfg (toRawF c) = Except.ok
      { conforme := decide
          (((c.historico_sessoes.countP fun s =>
              s.tipo == c.procedimento.tipo
                && s.data == c.procedimento.data_solicitacao) : Int)
            + c.procedimento.quantidade ≤ 1),
        mensagem :=
          if (((c.historico_sessoes.countP fun s =>
              s.tipo == c.procedimento.tipo
                && s.data == c.procedimento.data_solicitacao) : Int)
              + c.procedimento.quantidade ≤ 1) then
            "Regra de não permitir mesmo dia atendida."
          else
            "Violação: "
              ++ toString (((c.historico_sessoes.countP fun s =>
                  s.tipo == c.procedimento.tipo
                    && s.data == c.procedimento.data_solicitacao) : Int)
                + c.procedimento.quantidade)
              ++ " sessões no mesmo dia para " ++ c.procedimento.tipo ++ ".",
        evidencias := some
          [("tipo", EvVal.s c.procedimento.tipo),
           ("ja_realizadas_no_dia", EvVal.i ((c.historico_sessoes.countP fun s =>
              s.tipo == c.procedimento.tipo
                && s.data == c.procedimento.data_solicitacao) : Int)),
           ("solicitadas_no_dia", EvVal.i c.procedimento.quantidade),
           ("total_no_dia", EvVal.i (((c.historico_sessoes.countP fun s =>
              s.tipo == c.procedimento.tipo
                && s.data == c.procedimento.data_solicitacao) : Int)
              + c.procedimento.quantidade))] } := by
  have hsd := same_day_count_map c.historico_sessoes c.procedimento.tipo
    c.procedimento.data_solicitacao
  simp [rule_mesmo_dia, toRawF, getProc, getTipo, getDataSol, parse_date, h,
    hsd, Bind.bind, Except.bind, Pure.pure, Except.pure]

theorem rule_fm_ok (cfg : FreqConfig) (c : CtxF)
    (hcfg : checkConfig cfg.frequencia_maxima = Except.ok ()) :
    ∃ r, rule_frequencia_maxima cfg (toRawF c) = Except.ok r := by
  rcases hl : List.lookup c.procedimento.tipo cfg.frequencia_maxima with _ | regra
  · exact ⟨_, rule_fm_none cfg c hl⟩
  · have hinfo := checkConfig_ok_forall _ hcfg _ (lookup_mem hl)
    rcases hinfo with ⟨hsupp, q, hq, hq0⟩
    rcases period_key_supported _ hsupp c.procedimento.data_solicitacao with ⟨kref, hk⟩
    exact ⟨_, rule_fm_some cfg c regra q kref hl hq hk⟩

theorem rule_im_ok (cfg : FreqConfig) (c : CtxF) :
    ∃ r, rule_intervalo_minimo cfg (toRawF c) = Except.ok r := by
  by_cases hmin : (List.lookup c.procedimento.tipo cfg.intervalo_minimo_dias).getD 0 ≤ 0
  · exact ⟨_, rule_im_unset cfg c hmin⟩
  · rcases hm : maxDate (lastDates c.historico_sessoes c.procedimento.tipo
        c.procedimento.data_solicitacao) with _ | last
    · exact ⟨_, rule_im_noprior cfg c hmin hm⟩
    · exact ⟨_, rule_im_prior cfg c last hmin hm⟩

theorem rule_rp_ok (cfg : FreqConfig) (c : CtxF) :
    ∃ r, rule_repeticao_proibida cfg (toRawF c) = Except.ok r := by
  by_cases hmin : (List.lookup c.procedimento.tipo cfg.periodo_repeticao_proibida).getD 0 ≤ 0
  · exact ⟨_, rule_rp_unset cfg c hmin⟩
  · rcases hm : maxDate (lastDates c.historico_sessoes c.procedimento.tipo
        c.procedimento.data_solicitacao) with _ | last
    · exact ⟨_, rule_rp_noprior cfg c hmin hm⟩
    · exact ⟨_, rule_rp_prior cfg c last hmin hm⟩

theorem rule_md_ok (cfg : FreqConfig) (c : CtxF) :
    ∃ r, rule_mesmo_dia cfg (toRawF c) = Except.ok r := by
  by_cases hmem : c.procedimento.tipo ∈ cfg.nao_permitir_mesmo_dia
  · exact ⟨_, rule_md_listed cfg c hmem⟩
  · exact ⟨_, rule_md_exempt cfg c hmem⟩

theorem validar_steps (cfg : FreqConfig) (ctx : RawCtxF)
    (r1 r2 r3 r4 : RuleResult)
    (h1 : rule_frequencia_maxima cfg ctx = Except.ok r1)
    (h2 : rule_intervalo_minimo cfg ctx = Except.ok r2)
    (h3 : rule_repeticao_proibida cfg ctx = Except.ok r3)
    (h4 : rule_mesmo_dia cfg ctx = Except.ok r4) :
    validar cfg ctx = Except.ok
      { conforme := r1.conforme && r2.conforme && r3.conforme && r4.conforme,
        regras := ⟨r1, r2, r3, r4⟩ } := by
  simp [validar, h1, h2, h3, h4, Bind.bind, Except.bind, Pure.pure, Except.pure]

theorem validar_ok (cfg : FreqConfig) (c : CtxF)
    (hcfg : checkConfig cfg.frequencia_maxima = Except.ok ()) :
    ∃ rep, validar cfg (toRawF c) = Except.ok rep := by
  rcases rule_fm_ok cfg c hcfg with ⟨r1, h1⟩
  rcases rule_im_ok cfg c with ⟨r2, h2⟩
  rcases rule_rp_ok cfg c with ⟨r3, h3⟩
  rcases rule_md_ok cfg c with ⟨r4, h4⟩
  exact ⟨_, validar_steps cfg (toRawF c) r1 r2 r3 r4 h1 h2 h3 h4⟩

end Freq

namespace TEA

theorem regra_elegibilidade_ok (cfg : TEAConfig) (c : CtxT) :
    ∃ r, regra_elegibilidade cfg (toRawT c) = Except.ok r ∧ r.evidencias = none := by
  simp only [regra_elegibilidade, toRawT, getBenef, req, Bind.bind, Except.bind,
    Pure.pure, Except.pure]
  split_ifs <;> exact ⟨_, rfl, rfl⟩

theorem regra_cobertura_ok (cfg : TEAConfig) (c : CtxT) :
    ∃ r, regra_cobertura_tea cfg (toRawT c) = Except.ok r ∧ r.evidencias = none := by
  simp only [regra_cobertura_tea, toRawT, getProcT, req, Bind.bind, Except.bind,
    Pure.pure, Except.pure]
  split_ifs <;> exact ⟨_, rfl, rfl⟩

theorem regra_limite_ok (cfg : TEAConfig) (c : CtxT) :
    ∃ r, regra_limite_sessoes cfg (toRawT c) = Except.ok r ∧ r.evidencias = none := by
  simp only [regra_limite_sessoes, toRawT, getBenef, getProcT, req, Bind.bind,
    Except.bind, Pure.pure, Except.pure]
  rcases List.lookup c.procedimento.tipo cfg.limites_sessoes with _ | lim
  · exact ⟨_, rfl, rfl⟩
  · dsimp only
    split_ifs <;> exact ⟨_, rfl, rfl⟩

theorem validar_steps_tea (cfg : TEAConfig) (ctx : RawCtxT) (e c l : RuleResult)
    (he : regra_elegibilidade cfg ctx = Except.ok e)
    (hc : regra_cobertura_tea cfg ctx = Except.ok c)
    (hl : regra_limite_sessoes cfg ctx = Except.ok l) :
    validar cfg ctx = Except.ok
      { elegibilidade := e, cobertura := c, limites := l,
        conforme := e.conforme && c.conforme && l.conforme } := by
  simp [validar, he, hc, hl, Bind.bind, Except.bind, Pure.pure, Except.pure]

theorem validar_ok_tea (cfg : TEAConfig) (c : CtxT) :
    ∃ rep, validar cfg (toRawT c) = Except.ok rep := by
  rcases regra_elegibilidade_ok cfg c with ⟨e, he, _⟩
  rcases regra_cobertura_ok cfg c with ⟨cc, hc, _⟩
  rcases regra_limite_ok cfg c with ⟨l, hl, _⟩
  exact ⟨_, validar_steps_tea cfg (toRawT c) e cc l he hc hl⟩

end TEA



/-- C1: for every rule context, each engine's `validar` runs every evaluator
in its registry without short-circuiting: whenever the individual evaluators
produce results `r1..r4` (frequency engine) and `e, c, l` (TEA engine), the
report contains exactly those per-rule results — one per registered rule,
regardless of any of them being non-compliant — and the top-level `conforme`
equals the conjunction of all per-rule `conforme` flags. -/
theorem claim_C1
    (fcfg : Freq.FreqConfig) (fctx : RawCtxF) (r1 r2 r3 r4 : RuleResult)
    (tcfg : TEA.TEAConfig) (tctx : TEA.RawCtxT) (e c l : RuleResult)
    (h1 : Freq.rule_frequencia_maxima fcfg fctx = Except.ok r1)
    (h2 : Freq.rule_intervalo_minimo fcfg fctx = Except.ok r2)
    (h3 : Freq.rule_repeticao_proibida fcfg fctx = Except.ok r3)
    (h4 : Freq.rule_mesmo_dia fcfg fctx = Except.ok r4)
    (he : TEA.regra_elegibilidade tcfg tctx = Except.ok e)
    (hc : TEA.regra_cobertura_tea tcfg tctx = Except.ok c)
    (hl : TEA.regra_limite_sessoes tcfg tctx = Except.ok l) :
    Freq.validar fcfg fctx = Except.ok
      { conforme := r1.conforme && r2.conforme && r3.conforme && r4.conforme,
        regras := ⟨r1, r2, r3, r4⟩ } ∧
    TEA.validar tcfg tctx = Except.ok
      { elegibilidade := e, cobertura := c, limites := l,
        conforme := e.conforme && c.conforme && l.conforme } :=
  ⟨Freq.validar_steps fcfg fctx r1 r2 r3 r4 h1 h2 h3 h4,
   TEA.validar_steps_tea tcfg tctx e c l he hc hl⟩

/-- Witness for C1 at a concrete configuration and context (the TEA context
is deliberately non-compliant in `limites`, showing the other rules still
appear in the report and `conforme` is the AND). -/
theorem claim_C1_witness :
    Freq.validar ⟨[], [], [], []⟩ (toRawF ⟨⟨"aba", 1, ⟨2024, 5, 10⟩⟩, []⟩) =
      Except.ok
        { conforme := true && true && true && true,
          regras :=
            ⟨{ conforme := true,
               mensagem := "Sem regra de frequência configurada para aba.",
               evidencias := some [("atual_no_periodo", EvVal.i 0), ("limite", EvVal.null)] },
             { conforme := true,
               mensagem := "Sem intervalo mínimo configurado para aba.",
               evidencias := some [("intervalo_minimo_dias", EvVal.i 0)] },
             { conforme := true,
               mensagem := "Sem janela de repetição proibida para aba.",
               evidencias := some [("janela_dias", EvVal.i 0)] },
             { conforme := true,
               mensagem := "Sem restrição de mesmo dia para este tipo.",
               evidencias := some [] }⟩ } ∧
    TEA.validar ⟨21, ["F84"], ["aba"], [("aba", ⟨some 8, some 4⟩)]⟩
        (toRawT ⟨⟨true, 10, 0⟩, ⟨"F84.0", "aba", 9⟩⟩) =
      Except.ok
        { elegibilidade :=
            { conforme := true, mensagem := "Beneficiário elegível", evidencias := none },
          cobertura :=
            { conforme := true, mensagem := "Procedimento compatível com TEA",
              evidencias := none },
          limites :=
            { conforme := false,
              mensagem := "9 sessões excedem o limite de 8 para aba na faixa etária",
              evidencias := none },
          conforme := true && true && false } :=
  by
  exact claim_C1 ⟨[], [], [], []⟩ (toRawF ⟨⟨"aba", 1, ⟨2024, 5, 10⟩⟩, []⟩)
    { conforme := true,
      mensagem := "Sem regra de frequência configurada para aba.",
      evidencias := some [("atual_no_periodo", EvVal.i 0), ("limite", EvVal.null)] }
    { conforme := true,
      mensagem := "Sem intervalo mínimo configurado para aba.",
      evidencias := some [("intervalo_minimo_dias", EvVal.i 0)] }
    { conforme := true,
      mensagem := "Sem janela de repetição proibida para aba.",
      evidencias := some [("janela_dias", EvVal.i 0)] }
    { conforme := true,
      mensagem := "Sem restrição de mesmo dia para este tipo.",
      evidencias := some [] }
    ⟨21, ["F84"], ["aba"], [("aba", ⟨some 8, some 4⟩)]⟩
    (toRawT ⟨⟨true, 10, 0⟩, ⟨"F84.0", "aba", 9⟩⟩)
    { conforme := true, mensagem := "Beneficiário elegível", evidencias := none }
    { conforme := true, mensagem := "Procedimento compatível com TEA", evidencias := none }
    { conforme := false,
      mensagem := "9 sessões excedem o limite de 8 para aba na faixa etária",
      evidencias := none }
    (by decide) (by decide) (by decide) (by decide) (by decide) (by decide) (by decide)

/-- CPython `isocalendar` on January 1: when the day falls in ISO week 52
or 53, the ISO year is the previous calendar year (the `week < 0` branch
of the algorithm). -/
theorem jan1_iso_year (y : Nat)
    (h : (isocalendar ⟨y, 1, 1⟩).2.1 = 52 ∨ (isocalendar ⟨y, 1, 1⟩).2.1 = 53) :
    (isocalendar ⟨y, 1, 1⟩).1 = (y : Int) - 1 := by
  revert h
  simp only [isocalendar, isoweek1monday]
  split_ifs <;> intro h <;> dsimp only at h ⊢ <;> omega

/-- C4: the weekly period key of a date is the ISO week-year pair
`(isoYear, isoWeek)` of `date.isocalendar()`, not the calendar year: any
two dates with the same ISO pair (even across a month boundary) get equal
weekly keys, and a January 1 lying in ISO week 52 or 53 gets the previous
calendar year as the year component of its key.  Daily keys are
`(year, month, day)`, monthly `(year, month)`, annual `(year,)`. -/
theorem claim_C4 :
    (∀ d : Date, Freq.period_key d "semanal" =
      some [(isocalendar d).1, (isocalendar d).2.1]) ∧
    (∀ d1 d2 : Date, (isocalendar d1).1 = (isocalendar d2).1 →
      (isocalendar d1).2.1 = (isocalendar d2).2.1 →
      Freq.period_key d1 "semanal" = Freq.period_key d2 "semanal") ∧
    (∀ y : Nat, (isocalendar ⟨y, 1, 1⟩).2.1 = 52 ∨
        (isocalendar ⟨y, 1, 1⟩).2.1 = 53 →
      (isocalendar ⟨y, 1, 1⟩).1 = (y : Int) - 1) ∧
    (∀ d : Date, Freq.period_key d "diario" =
      some [(d.year : Int), (d.month : Int), (d.day : Int)]) ∧
    (∀ d : Date, Freq.period_key d "mensal" = some [(d.year : Int), (d.month : Int)]) ∧
    (∀ d : Date, Freq.period_key d "anual" = some [(d.year : Int)]) := by
  refine ⟨?_, ?_, fun y h => jan1_iso_year y h, ?_, ?_, ?_⟩
  · intro d
    simp +decide [Freq.period_key, Freq.week_year_key]
  · intro d1 d2 h1 h2
    simp +decide [Freq.period_key, Freq.week_year_key, h1, h2]
  · intro d
    simp +decide [Freq.period_key]
  · intro d
    simp +decide [Freq.period_key, Freq.month_year_key]
  · intro d
    simp +decide [Freq.period_key, Freq.year_key]

/-- Witness for C4: 2024-09-30 and 2024-10-06 share ISO week 40 of 2024
across the September/October boundary, and January 1 of 2021 lies in ISO
week 53 of ISO year 2020. -/
theorem claim_C4_witness :
    Freq.period_key ⟨2024, 9, 30⟩ "semanal" = Freq.period_key ⟨2024, 10, 6⟩ "semanal" ∧
    (isocalendar ⟨2021, 1, 1⟩).2.1 = 53 ∧
    (isocalendar ⟨2021, 1, 1⟩).1 = (2021 : Int) - 1 :=
  ⟨claim_C4.2.1 ⟨2024, 9, 30⟩ ⟨2024, 10, 6⟩ (by decide) (by decide),
   by decide,
   claim_C4.2.2.1 2021 (Or.inr (by decide))⟩


/-- C2: when the therapy type has a configured `frequencia_maxima` entry
with limit `L` and (supported) period `P`, the FrequencyMax rule is
compliant iff `countInPeriod(history, type, P, requestDate) +
requestedQuantity ≤ L`; a projected total of exactly `L` is compliant and
`L + 1` is not.  With no configured entry the rule passes trivially with
evidence `consumed 0` and `limit null`. -/
theorem claim_C2 (cfg : Freq.FreqConfig) (c : CtxF) :
    (∀ (regra : Freq.FreqRuleCfg) (L : Int) (kref : List Int),
      List.lookup c.procedimento.tipo cfg.frequencia_maxima = some regra →
      regra.quantidade = some L →
      Freq.period_key c.procedimento.data_solicitacao (pyLower regra.periodo) = some kref →
      ∃ r n, Freq.rule_frequencia_maxima cfg (toRawF c) = Except.ok r ∧
        Freq.count_in_period (c.historico_sessoes.map toRawSess) c.procedimento.tipo
          (pyLower regra.periodo) c.procedimento.data_solicitacao = Except.ok n ∧
        (r.conforme = true ↔ (n : Int) + c.procedimento.quantidade ≤ L) ∧
        ((n : Int) + c.procedimento.quantidade = L → r.conforme = true) ∧
        ((n : Int) + c.procedimento.quantidade = L + 1 → r.conforme = false)) ∧
    (List.lookup c.procedimento.tipo cfg.frequencia_maxima = none →
      Freq.rule_frequencia_maxima cfg (toRawF c) = Except.ok
        { conforme := true,
          mensagem := "Sem regra de frequência configurada para "
            ++ c.procedimento.tipo ++ ".",
          evidencias := some [("atual_no_periodo", EvVal.i 0),
            ("limite", EvVal.null)] }) := by
  constructor
  · intro regra L kref h hq hk
    refine ⟨_, _, Freq.rule_fm_some cfg c regra L kref h hq hk,
      Freq.count_in_period_map c.historico_sessoes c.procedimento.tipo
        (pyLower regra.periodo) c.procedimento.data_solicitacao kref hk, ?_, ?_, ?_⟩
    · simp
    · intro hEq
      simp [hEq]
    · intro hEq
      simp [hEq]
  · intro h
    exact Freq.rule_fm_none cfg c h


/-- Witness for C2: limit 2 per month, one prior session in the month,
one requested — projected total equals the limit, hence compliant. -/
theorem claim_C2_witness :
    ∃ r n, Freq.rule_frequencia_maxima ⟨[("aba", ⟨"mensal", some 2⟩)], [], [], []⟩
        (toRawF ⟨⟨"aba", 1, ⟨2024, 5, 10⟩⟩, [⟨"aba", ⟨2024, 5, 3⟩⟩]⟩) = Except.ok r ∧
      Freq.count_in_period ([(⟨"aba", ⟨2024, 5, 3⟩⟩ : Sessao)].map toRawSess) "aba"
        (pyLower "mensal") ⟨2024, 5, 10⟩ = Except.ok n ∧
      (r.conforme = true ↔ (n : Int) + 1 ≤ 2) ∧
      ((n : Int) + 1 = 2 → r.conforme = true) ∧
      ((n : Int) + 1 = 2 + 1 → r.conforme = false) :=
  (claim_C2 ⟨[("aba", ⟨"mensal", some 2⟩)], [], [], []⟩
      ⟨⟨"aba", 1, ⟨2024, 5, 10⟩⟩, [⟨"aba", ⟨2024, 5, 3⟩⟩]⟩).1
    ⟨"mensal", some 2⟩ 2 [2024, 5] (by decide) (by decide) (by decide)


/-- C3: with `minimumIntervalDays > 0` configured for the type and a prior
session of the type on or before the request date, the MinimumInterval
rule is compliant iff the day gap is at least the minimum AND
(`requestedQuantity = 1` OR `minDays = 0`); hence on this branch any
request with quantity above 1 is non-compliant even when the gap
suffices.  With `minDays ≤ 0` or no prior session the rule is
compliant. -/
theorem claim_C3 (cfg : Freq.FreqConfig) (c : CtxF) :
    (∀ last_dt : Date,
      ¬((List.lookup c.procedimento.tipo cfg.intervalo_minimo_dias).getD 0 ≤ 0) →
      Freq.last_session_date (c.historico_sessoes.map toRawSess) c.procedimento.tipo
        c.procedimento.data_solicitacao = Except.ok (some last_dt) →
      ∃ r, Freq.rule_intervalo_minimo cfg (toRawF c) = Except.ok r ∧
        (r.conforme = true ↔
          (diffDays c.procedimento.data_solicitacao last_dt ≥
              (List.lookup c.procedimento.tipo cfg.intervalo_minimo_dias).getD 0 ∧
            (c.procedimento.quantidade = 1 ∨
              (List.lookup c.procedimento.tipo cfg.intervalo_minimo_dias).getD 0 = 0))) ∧
        (1 < c.procedimento.quantidade → r.conforme = false)) ∧
    ((List.lookup c.procedimento.tipo cfg.intervalo_minimo_dias).getD 0 ≤ 0 →
      ∃ r, Freq.rule_intervalo_minimo cfg (toRawF c) = Except.ok r ∧ r.conforme = true) ∧
    (¬((List.lookup c.procedimento.tipo cfg.intervalo_minimo_dias).getD 0 ≤ 0) →
      Freq.last_session_date (c.historico_sessoes.map toRawSess) c.procedimento.tipo
        c.procedimento.data_solicitacao = Except.ok none →
      ∃ r, Freq.rule_intervalo_minimo cfg (toRawF c) = Except.ok r ∧ r.conforme = true) := by
  refine ⟨?_, ?_, ?_⟩
  · intro last_dt hmin hlast
    have hmap := Freq.last_session_date_map c.historico_sessoes c.procedimento.tipo
      c.procedimento.data_solicitacao
    rw [hmap] at hlast
    have hm : Freq.maxDate (Freq.lastDates c.historico_sessoes c.procedimento.tipo
        c.procedimento.data_solicitacao) = some last_dt := by simpa using hlast
    refine ⟨_, Freq.rule_im_prior cfg c last_dt hmin hm, ?_, ?_⟩
    · simp [Bool.and_eq_true, Bool.or_eq_true, decide_eq_true_eq]
    · intro hqt
      have h1 : (decide (c.procedimento.quantidade = 1)) = false := by
        simp; omega
      have h2 : (decide ((List.lookup c.procedimento.tipo cfg.intervalo_minimo_dias).getD 0 = 0)) = false := by
        simp; omega
      simp [h1, h2]
  · intro hmin
    exact ⟨_, Freq.rule_im_unset cfg c hmin, rfl⟩
  · intro hmin hlast
    have hmap := Freq.last_session_date_map c.historico_sessoes c.procedimento.tipo
      c.procedimento.data_solicitacao
    rw [hmap] at hlast
    have hm : Freq.maxDate (Freq.lastDates c.historico_sessoes c.procedimento.tipo
        c.procedimento.data_solicitacao) = none := by simpa using hlast
    exact ⟨_, Freq.rule_im_noprior cfg c hmin hm, rfl⟩


/-- Witness for C3: minimum interval 7 days, gap of 10 days, but
quantity 2 — the rule is non-compliant despite the satisfied gap. -/
theorem claim_C3_witness :
    ∃ r, Freq.rule_intervalo_minimo ⟨[], [("fono", 7)], [], []⟩
        (toRawF ⟨⟨"fono", 2, ⟨2024, 5, 20⟩⟩, [⟨"fono", ⟨2024, 5, 10⟩⟩]⟩) = Except.ok r ∧
      (r.conforme = true ↔
        (diffDays ⟨2024, 5, 20⟩ ⟨2024, 5, 10⟩ ≥
            (List.lookup "fono" [("fono", 7)]).getD 0 ∧
          ((2 : Int) = 1 ∨ (List.lookup "fono" [("fono", 7)]).getD 0 = 0))) ∧
      ((1 : Int) < 2 → r.conforme = false) := by
  have h := (claim_C3 ⟨[], [("fono", 7)], [], []⟩
      ⟨⟨"fono", 2, ⟨2024, 5, 20⟩⟩, [⟨"fono", ⟨2024, 5, 10⟩⟩]⟩).1
    ⟨2024, 5, 10⟩ (by decide) (by decide)
  simpa using h


/-- C9: `countInPeriod` returns exactly the number of history records
whose type matches and whose period key equals the reference key, and
appending one more record of the same type in the same bucket increases
the count by exactly one (in particular it never decreases). -/
theorem claim_C9 (hist : List Sessao) (tipo periodo : String) (ref : Date)
    (kref : List Int) (hk : Freq.period_key ref periodo = some kref) :
    Freq.count_in_period (hist.map toRawSess) tipo periodo ref =
      Except.ok (hist.countP (Freq.inBucket tipo periodo kref)) ∧
    ∀ s : Sessao, s.tipo = tipo → Freq.period_key s.data periodo = some kref →
      Freq.count_in_period ((hist ++ [s]).map toRawSess) tipo periodo ref =
        Except.ok (hist.countP (Freq.inBucket tipo periodo kref) + 1) := by
  refine ⟨Freq.count_in_period_map hist tipo periodo ref kref hk, ?_⟩
  intro s hs hsk
  rw [Freq.count_in_period_map (hist ++ [s]) tipo periodo ref kref hk]
  congr 1
  rw [List.countP_append]
  simp [Freq.inBucket, hs, hsk]

/-- Witness for C9 on the empty history with an annual bucket. -/
theorem claim_C9_witness :
    Freq.count_in_period (([] : List Sessao).map toRawSess) "aba" "anual" ⟨2024, 5, 10⟩ =
      Except.ok (([] : List Sessao).countP (Freq.inBucket "aba" "anual" [2024])) ∧
    ∀ s : Sessao, s.tipo = "aba" → Freq.period_key s.data "anual" = some [2024] →
      Freq.count_in_period (([] ++ [s] : List Sessao).map toRawSess) "aba" "anual" ⟨2024, 5, 10⟩ =
        Except.ok (([] : List Sessao).countP (Freq.inBucket "aba" "anual" [2024]) + 1) :=
  claim_C9 [] "aba" "anual" ⟨2024, 5, 10⟩ [2024] (by decide)

/-- C10: the last-session lookup uses an inclusive cutoff, so a history
record of the same type dated on the request date itself yields a day gap
of 0; with a strictly positive minimum interval and forbidden-repetition
window both rules are then non-compliant. -/
theorem claim_C10 (cfg : Freq.FreqConfig) (c : CtxF) (s : Sessao)
    (hmem : s ∈ c.historico_sessoes)
    (htipo : s.tipo = c.procedimento.tipo)
    (hdata : s.data = c.procedimento.data_solicitacao)
    (hmin : 0 < (List.lookup c.procedimento.tipo cfg.intervalo_minimo_dias).getD 0)
    (hrep : 0 < (List.lookup c.procedimento.tipo cfg.periodo_repeticao_proibida).getD 0) :
    (∃ last_dt, Freq.last_session_date (c.historico_sessoes.map toRawSess)
        c.procedimento.tipo c.procedimento.data_solicitacao = Except.ok (some last_dt) ∧
      diffDays c.procedimento.data_solicitacao last_dt = 0) ∧
    (∃ r, Freq.rule_intervalo_minimo cfg (toRawF c) = Except.ok r ∧ r.conforme = false) ∧
    (∃ r, Freq.rule_repeticao_proibida cfg (toRawF c) = Except.ok r ∧ r.conforme = false) := by
  have hmemd : s.data ∈ Freq.lastDates c.historico_sessoes c.procedimento.tipo
      c.procedimento.data_solicitacao := by
    refine List.mem_map.2 ⟨s, List.mem_filter.2 ⟨hmem, ?_⟩, rfl⟩
    simp [htipo, hdata, dle]
  rcases hmax : Freq.maxDate (Freq.lastDates c.historico_sessoes c.procedimento.tipo
      c.procedimento.data_solicitacao) with _ | last_dt
  · rw [Freq.maxDate_eq_none] at hmax
    rw [hmax] at hmemd
    simp at hmemd
  · rcases List.mem_map.1 (Freq.maxDate_mem hmax) with ⟨x, hx, hxe⟩
    have hpred := (List.mem_filter.1 hx).2
    simp only [Bool.and_eq_true, decide_eq_true_eq] at hpred
    have hle : toOrdinal last_dt ≤ toOrdinal c.procedimento.data_solicitacao := by
      rw [← hxe]
      exact hpred.2
    have hge := Freq.maxDate_ge hmax s.data hmemd
    rw [hdata] at hge
    have hdiff : diffDays c.procedimento.data_solicitacao last_dt = 0 := by
      unfold diffDays
      omega
    have hminn : ¬((List.lookup c.procedimento.tipo cfg.intervalo_minimo_dias).getD 0 ≤ 0) := by
      omega
    have hrepn : ¬((List.lookup c.procedimento.tipo cfg.periodo_repeticao_proibida).getD 0 ≤ 0) := by
      omega
    refine ⟨⟨last_dt, ?_, hdiff⟩,
      ⟨_, Freq.rule_im_prior cfg c last_dt hminn hmax, ?_⟩,
      ⟨_, Freq.rule_rp_prior cfg c last_dt hrepn hmax, ?_⟩⟩
    · rw [Freq.last_session_date_map, hmax]
    · have h1 : decide (diffDays c.procedimento.data_solicitacao last_dt ≥
          (List.lookup c.procedimento.tipo cfg.intervalo_minimo_dias).getD 0) = false := by
        simp only [hdiff, ge_iff_le, decide_eq_false_iff_not, not_le]
        omega
      simp [h1]
    · have h1 : decide (diffDays c.procedimento.data_solicitacao last_dt ≥
          (List.lookup c.procedimento.tipo cfg.periodo_repeticao_proibida).getD 0) = false := by
        simp only [hdiff, ge_iff_le, decide_eq_false_iff_not, not_le]
        omega
      simp [h1]


/-- Witness for C10: a same-day prior `fono` session with a 7-day minimum
interval and a 30-day repetition window. -/
theorem claim_C10_witness :
    (∃ last_dt, Freq.last_session_date ([(⟨"fono", ⟨2024, 5, 10⟩⟩ : Sessao)].map toRawSess)
        "fono" ⟨2024, 5, 10⟩ = Except.ok (some last_dt) ∧
      diffDays ⟨2024, 5, 10⟩ last_dt = 0) ∧
    (∃ r, Freq.rule_intervalo_minimo ⟨[], [("fono", 7)], [("fono", 30)], []⟩
        (toRawF ⟨⟨"fono", 1, ⟨2024, 5, 10⟩⟩, [⟨"fono", ⟨2024, 5, 10⟩⟩]⟩) = Except.ok r ∧
      r.conforme = false) ∧
    (∃ r, Freq.rule_repeticao_proibida ⟨[], [("fono", 7)], [("fono", 30)], []⟩
        (toRawF ⟨⟨"fono", 1, ⟨2024, 5, 10⟩⟩, [⟨"fono", ⟨2024, 5, 10⟩⟩]⟩) = Except.ok r ∧
      r.conforme = false) := by
  have h := claim_C10 ⟨[], [("fono", 7)], [("fono", 30)], []⟩
    ⟨⟨"fono", 1, ⟨2024, 5, 10⟩⟩, [⟨"fono", ⟨2024, 5, 10⟩⟩]⟩ ⟨"fono", ⟨2024, 5, 10⟩⟩
    (by decide) (by decide) (by decide) (by decide) (by decide)
  simpa using h

/-- C8: each engine's `validar` is a pure, deterministic function of the
configuration fixed at construction and the supplied context (the
embedding is a total function with no state, I/O, or clock: the only
notion of now is `procedimento.data_solicitacao` inside the context), so
identical contexts yield identical reports. -/
theorem claim_C8 (fcfg : Freq.FreqConfig) (ctx1 ctx2 : RawCtxF)
    (tcfg : TEA.TEAConfig) (t1 t2 : TEA.RawCtxT)
    (hf : ctx1 = ctx2) (ht : t1 = t2) :
    Freq.validar fcfg ctx1 = Freq.validar fcfg ctx2 ∧
    TEA.validar tcfg t1 = TEA.validar tcfg t2 := by
  subst hf
  subst ht
  exact ⟨rfl, rfl⟩

/-- Witness for C8 at a concrete configuration and context. -/
theorem claim_C8_witness :
    Freq.validar ⟨[], [], [], []⟩ (toRawF ⟨⟨"aba", 1, ⟨2024, 5, 10⟩⟩, []⟩) =
      Freq.validar ⟨[], [], [], []⟩ (toRawF ⟨⟨"aba", 1, ⟨2024, 5, 10⟩⟩, []⟩) ∧
    TEA.validar ⟨21, ["F84"], ["aba"], []⟩ (toRawT ⟨⟨true, 10, 0⟩, ⟨"F84.0", "aba", 1⟩⟩) =
      TEA.validar ⟨21, ["F84"], ["aba"], []⟩ (toRawT ⟨⟨true, 10, 0⟩, ⟨"F84.0", "aba", 1⟩⟩) :=
  claim_C8 ⟨[], [], [], []⟩ (toRawF ⟨⟨"aba", 1, ⟨2024, 5, 10⟩⟩, []⟩)
    (toRawF ⟨⟨"aba", 1, ⟨2024, 5, 10⟩⟩, []⟩) ⟨21, ["F84"], ["aba"], []⟩
    (toRawT ⟨⟨true, 10, 0⟩, ⟨"F84.0", "aba", 1⟩⟩)
    (toRawT ⟨⟨true, 10, 0⟩, ⟨"F84.0", "aba", 1⟩⟩) rfl rfl



/-- C5: constructing the frequency engine fails (with an error naming the
offending therapy type) iff some `frequencia_maxima` entry has an
unsupported period or a quantity that is not a non-negative integer; when
construction succeeds, every configured type's period key is defined for
every date (the unsupported-period branch is unreachable) and `validar`
on any well-formed context returns a report, never a configuration
error. -/
theorem claim_C5 (cfg : Freq.FreqConfig) :
    ((∃ e, Freq.checkConfig cfg.frequencia_maxima = Except.error e) ↔
      ∃ p ∈ cfg.frequencia_maxima,
        ¬(pyLower p.2.periodo ∈ Freq.PERIODOS_SUPORTADOS ∧
          ∃ q, p.2.quantidade = some q ∧ 0 ≤ q)) ∧
    (∀ e, Freq.checkConfig cfg.frequencia_maxima = Except.error e →
      ∃ p ∈ cfg.frequencia_maxima,
        e = Err.invalidPeriod p.1 (pyLower p.2.periodo) ∨
        e = Err.invalidQuantity p.1 p.2.quantidade) ∧
    (Freq.checkConfig cfg.frequencia_maxima = Except.ok () →
      (∀ tipo regra, List.lookup tipo cfg.frequencia_maxima = some regra →
        ∀ d : Date, ∃ k, Freq.period_key d (pyLower regra.periodo) = some k) ∧
      ∀ c : CtxF, ∃ rep, Freq.validar cfg (toRawF c) = Except.ok rep) := by
  refine ⟨⟨?_, ?_⟩, fun e he => Freq.checkConfig_error_mem _ e he, ?_⟩
  · rintro ⟨e, he⟩
    by_contra hno
    push_neg at hno
    have hok : Freq.checkConfig cfg.frequencia_maxima = Except.ok () :=
      Freq.checkConfig_ok_of_forall _ hno
    rw [hok] at he
    cases he
  · rintro ⟨p, hp, hbad⟩
    rcases hcc : Freq.checkConfig cfg.frequencia_maxima with e | u
    · exact ⟨e, rfl⟩
    · cases u
      exact absurd (Freq.checkConfig_ok_forall _ hcc p hp) hbad
  · intro hok
    refine ⟨?_, fun c => Freq.validar_ok cfg c hok⟩
    intro tipo regra hl d
    have hi := Freq.checkConfig_ok_forall _ hok _ (Freq.lookup_mem hl)
    exact Freq.period_key_supported _ hi.1 d

/-- Witness for C5: an entry with period `quinzenal` is rejected with an
error naming its type, while a validated weekly configuration yields a
complete report on a well-formed context. -/
theorem claim_C5_witness :
    (∃ p ∈ [("x", (⟨"quinzenal", some 1⟩ : Freq.FreqRuleCfg))],
      Err.invalidPeriod "x" (pyLower "quinzenal")
          = Err.invalidPeriod p.1 (pyLower p.2.periodo) ∨
        Err.invalidPeriod "x" (pyLower "quinzenal")
          = Err.invalidQuantity p.1 p.2.quantidade) ∧
    (∃ rep, Freq.validar ⟨[("aba", ⟨"semanal", some 3⟩)], [], [], []⟩
      (toRawF ⟨⟨"aba", 1, ⟨2024, 5, 10⟩⟩, []⟩) = Except.ok rep) := by
  constructor
  · exact (claim_C5 ⟨[("x", ⟨"quinzenal", some 1⟩)], [], [], []⟩).2.1 _ (by decide)
  · exact ((claim_C5 ⟨[("aba", ⟨"semanal", some 3⟩)], [], [], []⟩).2.2
      (by decide)).2 ⟨⟨"aba", 1, ⟨2024, 5, 10⟩⟩, []⟩


theorem rule_fm_evid (cfg : Freq.FreqConfig) (c : CtxF)
    (hcfg : Freq.checkConfig cfg.frequencia_maxima = Except.ok ()) :
    ∃ r, Freq.rule_frequencia_maxima cfg (toRawF c) = Except.ok r ∧
      r.evidencias ≠ none := by
  rcases hl : List.lookup c.procedimento.tipo cfg.frequencia_maxima with _ | regra
  · exact ⟨_, Freq.rule_fm_none cfg c hl, by simp⟩
  · have hinfo := Freq.checkConfig_ok_forall _ hcfg _ (Freq.lookup_mem hl)
    rcases hinfo with ⟨hsupp, q, hq, hq0⟩
    rcases Freq.period_key_supported _ hsupp c.procedimento.data_solicitacao with ⟨kref, hk⟩
    exact ⟨_, Freq.rule_fm_some cfg c regra q kref hl hq hk, by simp⟩

theorem rule_im_evid (cfg : Freq.FreqConfig) (c : CtxF) :
    ∃ r, Freq.rule_intervalo_minimo cfg (toRawF c) = Except.ok r ∧
      r.evidencias ≠ none := by
  by_cases hmin : (List.lookup c.procedimento.tipo cfg.intervalo_minimo_dias).getD 0 ≤ 0
  · exact ⟨_, Freq.rule_im_unset cfg c hmin, by simp⟩
  · rcases hm : Freq.maxDate (Freq.lastDates c.historico_sessoes c.procedimento.tipo
        c.procedimento.data_solicitacao) with _ | last
    · exact ⟨_, Freq.rule_im_noprior cfg c hmin hm, by simp⟩
    · exact ⟨_, Freq.rule_im_prior cfg c last hmin hm, by simp⟩

theorem rule_rp_evid (cfg : Freq.FreqConfig) (c : CtxF) :
    ∃ r, Freq.rule_repeticao_proibida cfg (toRawF c) = Except.ok r ∧
      r.evidencias ≠ none := by
  by_cases hmin : (List.lookup c.procedimento.tipo cfg.periodo_repeticao_proibida).getD 0 ≤ 0
  · exact ⟨_, Freq.rule_rp_unset cfg c hmin, by simp⟩
  · rcases hm : Freq.maxDate (Freq.lastDates c.historico_sessoes c.procedimento.tipo
        c.procedimento.data_solicitacao) with _ | last
    · exact ⟨_, Freq.rule_rp_noprior cfg c hmin hm, by simp⟩
    · exact ⟨_, Freq.rule_rp_prior cfg c last hmin hm, by simp⟩

theorem rule_md_evid (cfg : Freq.FreqConfig) (c : CtxF) :
    ∃ r, Freq.rule_mesmo_dia cfg (toRawF c) = Except.ok r ∧
      r.evidencias ≠ none := by
  by_cases hmem : c.procedimento.tipo ∈ cfg.nao_permitir_mesmo_dia
  · exact ⟨_, Freq.rule_md_listed cfg c hmem, by simp⟩
  · exact ⟨_, Freq.rule_md_exempt cfg c hmem, by simp⟩

/-- C6 counterexample: the TEA engine's eligibility rule returns a
non-compliant result whose dict has no `"evidencias"` key at all (and no
age / limit quantities), refuting the claim that every rule result of
either engine carries a structured evidence mapping. -/
theorem claim_C6_counterexample :
    TEA.regra_elegibilidade ⟨21, ["F84"], ["aba"], []⟩
        (toRawT ⟨⟨false, 10, 0⟩, ⟨"F84.0", "aba", 1⟩⟩) =
      Except.ok { conforme := false, mensagem := "Beneficiário inativo",
                  evidencias := none } := by decide

/-- C6 (amended): every rule result of the frequency engine carries, next
to its flag and message, an evidence mapping (`evidencias` present in
every branch); the TEA engine's rule results carry a flag and message but
never an evidence mapping. -/
theorem claim_C6 (fcfg : Freq.FreqConfig) (c : CtxF)
    (tcfg : TEA.TEAConfig) (tc : CtxT) :
    (Freq.checkConfig fcfg.frequencia_maxima = Except.ok () →
      ∃ r1 r2 r3 r4,
        Freq.rule_frequencia_maxima fcfg (toRawF c) = Except.ok r1 ∧
          r1.evidencias ≠ none ∧
        Freq.rule_intervalo_minimo fcfg (toRawF c) = Except.ok r2 ∧
          r2.evidencias ≠ none ∧
        Freq.rule_repeticao_proibida fcfg (toRawF c) = Except.ok r3 ∧
          r3.evidencias ≠ none ∧
        Freq.rule_mesmo_dia fcfg (toRawF c) = Except.ok r4 ∧
          r4.evidencias ≠ none) ∧
    (∃ e cc l,
      TEA.regra_elegibilidade tcfg (toRawT tc) = Except.ok e ∧
        e.evidencias = none ∧
      TEA.regra_cobertura_tea tcfg (toRawT tc) = Except.ok cc ∧
        cc.evidencias = none ∧
      TEA.regra_limite_sessoes tcfg (toRawT tc) = Except.ok l ∧
        l.evidencias = none) := by
  constructor
  · intro hcfg
    rcases rule_fm_evid fcfg c hcfg with ⟨r1, h1, e1⟩
    rcases rule_im_evid fcfg c with ⟨r2, h2, e2⟩
    rcases rule_rp_evid fcfg c with ⟨r3, h3, e3⟩
    rcases rule_md_evid fcfg c with ⟨r4, h4, e4⟩
    exact ⟨r1, r2, r3, r4, h1, e1, h2, e2, h3, e3, h4, e4⟩
  · rcases TEA.regra_elegibilidade_ok tcfg tc with ⟨e, he, ee⟩
    rcases TEA.regra_cobertura_ok tcfg tc with ⟨cc, hc, ec⟩
    rcases TEA.regra_limite_ok tcfg tc with ⟨l, hl, el⟩
    exact ⟨e, cc, l, he, ee, hc, ec, hl, el⟩

/-- Witness for C6 at concrete configurations and contexts. -/
theorem claim_C6_witness :
    (∃ r1 r2 r3 r4,
      Freq.rule_frequencia_maxima ⟨[], [], [], []⟩
          (toRawF ⟨⟨"aba", 1, ⟨2024, 5, 10⟩⟩, []⟩) = Except.ok r1 ∧
        r1.evidencias ≠ none ∧
      Freq.rule_intervalo_minimo ⟨[], [], [], []⟩
          (toRawF ⟨⟨"aba", 1, ⟨2024, 5, 10⟩⟩, []⟩) = Except.ok r2 ∧
        r2.evidencias ≠ none ∧
      Freq.rule_repeticao_proibida ⟨[], [], [], []⟩
          (toRawF ⟨⟨"aba", 1, ⟨2024, 5, 10⟩⟩, []⟩) = Except.ok r3 ∧
        r3.evidencias ≠ none ∧
      Freq.rule_mesmo_dia ⟨[], [], [], []⟩
          (toRawF ⟨⟨"aba", 1, ⟨2024, 5, 10⟩⟩, []⟩) = Except.ok r4 ∧
        r4.evidencias ≠ none) ∧
    (∃ e cc l,
      TEA.regra_elegibilidade ⟨21, ["F84"], ["aba"], []⟩
          (toRawT ⟨⟨true, 10, 0⟩, ⟨"F84.0", "aba", 1⟩⟩) = Except.ok e ∧
        e.evidencias = none ∧
      TEA.regra_cobertura_tea ⟨21, ["F84"], ["aba"], []⟩
          (toRawT ⟨⟨true, 10, 0⟩, ⟨"F84.0", "aba", 1⟩⟩) = Except.ok cc ∧
        cc.evidencias = none ∧
      TEA.regra_limite_sessoes ⟨21, ["F84"], ["aba"], []⟩
          (toRawT ⟨⟨true, 10, 0⟩, ⟨"F84.0", "aba", 1⟩⟩) = Except.ok l ∧
        l.evidencias = none) := by
  have h := claim_C6 ⟨[], [], [], []⟩ ⟨⟨"aba", 1, ⟨2024, 5, 10⟩⟩, []⟩
    ⟨21, ["F84"], ["aba"], []⟩ ⟨⟨true, 10, 0⟩, ⟨"F84.0", "aba", 1⟩⟩
  exact ⟨h.1 (by decide), h.2⟩


theorem regra_elegibilidade_ok_part (cfg : TEA.TEAConfig) (a : Bool) (i cd : Int)
    (proc : Option TEA.RawProcT) :
    ∃ r, TEA.regra_elegibilidade cfg ⟨some ⟨some a, some i, some cd⟩, proc⟩ =
      Except.ok r := by
  simp only [TEA.regra_elegibilidade, TEA.getBenef, TEA.req, Bind.bind, Except.bind,
    Pure.pure, Except.pure]
  split_ifs <;> exact ⟨_, rfl⟩

theorem regra_cobertura_ok_part (cfg : TEA.TEAConfig) (benef : Option TEA.RawBenef)
    (cid tipo : String) (q : Option Int) :
    ∃ r, TEA.regra_cobertura_tea cfg ⟨benef, some ⟨some cid, some tipo, q⟩⟩ =
      Except.ok r := by
  simp only [TEA.regra_cobertura_tea, TEA.getProcT, TEA.req, Bind.bind, Except.bind,
    Pure.pure, Except.pure]
  split_ifs <;> exact ⟨_, rfl⟩

theorem regra_limite_missing_quant (cfg : TEA.TEAConfig) (a : Bool) (i cd : Int)
    (cid tipo : String) :
    TEA.regra_limite_sessoes cfg
        ⟨some ⟨some a, some i, some cd⟩, some ⟨some cid, some tipo, none⟩⟩ =
      Except.error (Err.keyError "quantidade") := by
  simp [TEA.regra_limite_sessoes, TEA.getBenef, TEA.getProcT, TEA.req, Bind.bind,
    Except.bind, Pure.pure, Except.pure]

theorem validar_tea_err_limite (cfg : TEA.TEAConfig) (ctx : TEA.RawCtxT)
    (e cres : RuleResult) (err : Err)
    (he : TEA.regra_elegibilidade cfg ctx = Except.ok e)
    (hc : TEA.regra_cobertura_tea cfg ctx = Except.ok cres)
    (hl : TEA.regra_limite_sessoes cfg ctx = Except.error err) :
    TEA.validar cfg ctx = Except.error err := by
  simp [TEA.validar, he, hc, hl, Bind.bind, Except.bind, Pure.pure, Except.pure]

/-- C7 counterexample: in the frequency engine a context whose
`procedimento` has no `quantidade` key and which has no
`historico_sessoes` key at all still yields a complete report — the
claim's example "required" fields (the procedure's quantity, the session
history) are in fact optional with defaults (1 and the empty list). -/
theorem claim_C7_counterexample :
    Freq.validar ⟨[], [], [], []⟩
        ⟨some ⟨some "aba", none, some (DateLike.obj ⟨2024, 5, 10⟩)⟩, none⟩ =
      Except.ok
        { conforme := true,
          regras :=
            ⟨{ conforme := true,
               mensagem := "Sem regra de frequência configurada para aba.",
               evidencias := some [("atual_no_periodo", EvVal.i 0),
                 ("limite", EvVal.null)] },
             { conforme := true,
               mensagem := "Sem intervalo mínimo configurado para aba.",
               evidencias := some [("intervalo_minimo_dias", EvVal.i 0)] },
             { conforme := true,
               mensagem := "Sem janela de repetição proibida para aba.",
               evidencias := some [("janela_dias", EvVal.i 0)] },
             { conforme := true,
               mensagem := "Sem restrição de mesmo dia para este tipo.",
               evidencias := some [] }⟩ } := by decide

/-- C7 (amended): a genuinely required field that is missing
(`procedimento`, `tipo`, `data_solicitacao`) or an unparsable date string
fails the frequency engine's `validar` with a typed error identifying the
offending key (or carrying the offending string), producing no report; in
the TEA engine a missing `quantidade` likewise fails the whole call.
(`quantidade` and `historico_sessoes` are optional in the frequency
engine — see the counterexample.) -/
theorem claim_C7 (cfg : Freq.FreqConfig) (ctx : RawCtxF) (tcfg : TEA.TEAConfig) :
    (ctx.procedimento = none →
      Freq.validar cfg ctx = Except.error (Err.keyError "procedimento")) ∧
    (∀ p, ctx.procedimento = some p → p.tipo = none →
      Freq.validar cfg ctx = Except.error (Err.keyError "tipo")) ∧
    (∀ p t, ctx.procedimento = some p → p.tipo = some t →
      p.data_solicitacao = none →
      Freq.validar cfg ctx = Except.error (Err.keyError "data_solicitacao")) ∧
    (∀ p t s e, ctx.procedimento = some p → p.tipo = some t →
      p.data_solicitacao = some (DateLike.str s) → parseIso s = Except.error e →
      Freq.validar cfg ctx = Except.error e) ∧
    (∀ (a : Bool) (i cd : Int) (cid tipo : String),
      ∃ err, TEA.validar tcfg
        ⟨some ⟨some a, some i, some cd⟩, some ⟨some cid, some tipo, none⟩⟩ =
          Except.error err ∧ err = Err.keyError "quantidade") := by
  refine ⟨?_, ?_, ?_, ?_, ?_⟩
  · intro hp
    simp [Freq.validar, Freq.rule_frequencia_maxima, Freq.getProc, hp, Bind.bind,
      Except.bind, Pure.pure, Except.pure]
  · intro p hp hpt
    simp [Freq.validar, Freq.rule_frequencia_maxima, Freq.getProc, Freq.getTipo,
      hp, hpt, Bind.bind, Except.bind, Pure.pure, Except.pure]
  · intro p t hp hpt hpd
    simp [Freq.validar, Freq.rule_frequencia_maxima, Freq.getProc, Freq.getTipo,
      Freq.getDataSol, hp, hpt, hpd, Bind.bind, Except.bind, Pure.pure, Except.pure]
  · intro p t s e hp hpt hpd hs
    simp [Freq.validar, Freq.rule_frequencia_maxima, Freq.getProc, Freq.getTipo,
      Freq.getDataSol, parse_date, hp, hpt, hpd, hs, Bind.bind, Except.bind,
      Pure.pure, Except.pure]
  · intro a i cd cid tipo
    rcases regra_elegibilidade_ok_part tcfg a i cd
        (some ⟨some cid, some tipo, none⟩) with ⟨e1, he⟩
    rcases regra_cobertura_ok_part tcfg (some ⟨some a, some i, some cd⟩)
        cid tipo none with ⟨c1, hc⟩
    exact ⟨_, validar_tea_err_limite tcfg _ e1 c1 _ he hc
      (regra_limite_missing_quant tcfg a i cd cid tipo), rfl⟩

/-- Witness for C7 at concrete malformed contexts. -/
theorem claim_C7_witness :
    Freq.validar ⟨[], [], [], []⟩ ⟨none, none⟩ =
      Except.error (Err.keyError "procedimento") ∧
    Freq.validar ⟨[], [], [], []⟩
        ⟨some ⟨some "aba", some 1, some (DateLike.str "2024-13-05")⟩, none⟩ =
      Except.error (Err.dateParse "2024-13-05") ∧
    (∃ err, TEA.validar ⟨21, ["F84"], ["aba"], []⟩
        ⟨some ⟨some true, some 10, some 0⟩, some ⟨some "F84.0", some "aba", none⟩⟩ =
      Except.error err ∧ err = Err.keyError "quantidade") := by
  refine ⟨(claim_C7 ⟨[], [], [], []⟩ ⟨none, none⟩ ⟨21, ["F84"], ["aba"], []⟩).1 rfl,
    ?_, ?_⟩
  · exact (claim_C7 ⟨[], [], [], []⟩
      ⟨some ⟨some "aba", some 1, some (DateLike.str "2024-13-05")⟩, none⟩
      ⟨21, ["F84"], ["aba"], []⟩).2.2.2.1 _ "aba" "2024-13-05" _ rfl rfl rfl (by decide)
  · exact (claim_C7 ⟨[], [], [], []⟩ ⟨none, none⟩
      ⟨21, ["F84"], ["aba"], []⟩).2.2.2.2 true 10 0 "F84.0" "aba"

end FraudScan
